import Mathlib

set_option maxHeartbeats 1000000
set_option maxRecDepth 8000

/- Verification of the RiDat binary reader (src/ridat_reader.py), shallowly
   embedded over byte lists.  Floating-point values are modelled by their
   IEEE-754 bit patterns (as Nat), read little-endian from the byte stream:
   the reader never computes with float values, it only stores them, and the
   float32-to-float64 widening numpy applies when the real/imaginary samples
   are stored is a value-preserving injection, so float32 samples are kept as
   their 32-bit patterns.  Python str values produced by decoding are
   modelled by their UTF-8 byte sequences (for a valid-UTF-8 byte list this
   representation is bijective, and stripping trailing NUL characters from
   the str is stripping trailing zero bytes of the representation). -/

/- Failure modes of the reader.  The Python code raises IOError (magic and
   version checks), struct.error (short read inside struct.unpack),
   UnicodeDecodeError (invalid UTF-8), OSError (negative seek) and
   ValueError (empty delimiter, numpy broadcast mismatch) at the
   corresponding source places. -/
inductive Err where
  | InvalidMagic
  | UnsupportedFormat
  | UnknownVersion
  | UnexpectedEndOfFile
  | InvalidEncoding
  | NegativeSeek
  | EmptyDelimiter
  | BroadcastMismatch
deriving DecidableEq

/- Little-endian value of a byte list (struct.unpack uses the platform's
   native little-endian order for the format codes i, f, d). -/
def leNat (l : List Nat) : Nat := l.foldr (fun b acc => b + 256 * acc) 0

/- Two's-complement reading of a 32-bit pattern, as struct.unpack("i"). -/
def toInt32 (n : Nat) : Int := if n < 2 ^ 31 then (n : Int) else (n : Int) - 2 ^ 32

/- Is b a UTF-8 continuation byte. -/
def utf8Cont (b : Nat) : Bool := 128 <= b && b < 192

/- One-byte-at-a-time UTF-8 validity automaton.  k is the number of
   continuation bytes still expected, and lo/hi the allowed half-open range
   of the next byte (strict decoders constrain the first continuation byte
   of some sequences, ruling out overlong forms, surrogates and code points
   above 0x10FFFF, exactly as Python's strict utf-8 codec does). -/
def utf8Run : Nat -> Nat -> Nat -> List Nat -> Bool
  | 0, _, _, [] => true
  | _ + 1, _, _, [] => false
  | 0, _, _, b :: rest =>
    if b < 128 then utf8Run 0 128 192 rest
    else if b < 194 then false
    else if b < 224 then utf8Run 1 128 192 rest
    else if b = 224 then utf8Run 2 160 192 rest
    else if b = 237 then utf8Run 2 128 160 rest
    else if b < 240 then utf8Run 2 128 192 rest
    else if b = 240 then utf8Run 3 144 192 rest
    else if b = 244 then utf8Run 3 128 144 rest
    else if b < 245 then utf8Run 3 128 192 rest
    else false
  | k + 1, lo, hi, b :: rest =>
    if lo <= b && b < hi then utf8Run k 128 192 rest else false

/- Validity of a byte list as (strict, Python-style) UTF-8. -/
def utf8Valid (l : List Nat) : Bool := utf8Run 0 128 192 l

/- str.rstrip(chr 0) on the byte representation. -/
def rstripNul (l : List Nat) : List Nat := (l.reverse.dropWhile (fun b => b == 0)).reverse

/- A sequential byte-stream computation: takes the bytes still ahead of the
   cursor, returns a value and the bytes left, or a failure. -/
def ByteReader (α : Type) : Type := List Nat → Except Err (α × List Nat)

instance : Monad ByteReader where
  pure a := fun bs => .ok (a, bs)
  bind p f := fun bs =>
    match p bs with
    | .error e => .error e
    | .ok (a, rest) => f a rest

/- file.read(n) followed by struct.unpack: struct.error unless n bytes
   remain. -/
def readN (n : Nat) : ByteReader (List Nat) := fun bs =>
  if n ≤ bs.length then .ok (bs.take n, bs.drop n) else .error .UnexpectedEndOfFile

/- file.read(n) alone (as used for strings): returns whatever bytes are
   available, possibly fewer than n. -/
def readAvail (n : Nat) : ByteReader (List Nat) := fun bs =>
  .ok (bs.take n, bs.drop n)

def rfail {α : Type} (e : Err) : ByteReader α := fun _ => .error e

/- reads 4 bytes from a file, and turns them into an integer. -/
def read_int_from_file : ByteReader Int := do
  let b ← readN 4
  pure (toInt32 (leNat b))

/- reads 4 bytes from a file: a float32, kept as its bit pattern. -/
def read_float_from_file : ByteReader Nat := do
  let b ← readN 4
  pure (leNat b)

/- reads 8 bytes from a file: a float64, kept as its bit pattern. -/
def read_double_from_file : ByteReader Nat := do
  let b ← readN 8
  pure (leNat b)

/- reads a number of bytes from a file, and turns them into a string:
   str(bytes, "utf-8").rstrip(chr 0). -/
def read_string_from_file (n : Nat) : ByteReader (List Nat) := do
  let b ← readAvail n
  if utf8Valid b then pure (rstripNul b) else rfail .InvalidEncoding

/- reads arrays of data from file: n repeated scalar reads. -/
def read_data_sequence_from_file {α : Type} (p : ByteReader α) : Nat → ByteReader (List α)
  | 0 => pure []
  | n + 1 => do
    let x ← p
    let rest ← read_data_sequence_from_file p n
    pure (x :: rest)

/- numpy-style assignment arr[start : start+vals.length] = vals. -/
def setSlice {α : Type} (arr : List α) (start : Nat) (vals : List α) : List α :=
  arr.take start ++ vals ++ arr.drop (start + vals.length)

/- Class for storing Rf Channel parameters.  float64 fields are bit
   patterns; int fields are Int. -/
structure RfChannelsParameters where
  SF : Nat := 0
  Offset : Nat := 0
  MultReg : Int := 0
  PhaseTwiddle : Int := 0
  ChanAOffset : Int := 0
  ChanBOffset : Int := 0
  ExtAPhaseTrim : Int := 0
  ExtAAmpTrim : Int := 0
  ExtBPhaseTrim : Int := 0
  ExtBAmpTrim : Int := 0
  IntAAmpTrim : Int := 0
  IntBAmpTrim : Int := 0
  PhaseTrim0 : Int := 0
  AmpTrim0 : Int := 0
  PhaseTrim90 : Int := 0
  AmpTrim90 : Int := 0
  PhaseTrim180 : Int := 0
  AmpTrim180 : Int := 0
  PhaseTrim270 : Int := 0
  AmpTrim270 : Int := 0
  quadtrim : Int := 0

/- Class for storing System parameters.  DummyParam1 and DummyParam2 are the
   declared fields of the Python class (initial value 0.0); the reader
   assigns the wire values to the attribute names DummyPar1 and DummyPar2
   instead (Python object attributes are created on assignment, so these are
   modelled as further fields). -/
structure SysParameters where
  Dead1 : Nat := 0
  Dead2 : Nat := 0
  P90 : Nat := 0
  P180 : Nat := 0
  rf_channels : List RfChannelsParameters := [{}, {}, {}]
  GSH1 : List Nat := []
  GSH2 : List Nat := []
  GSH3 : List Nat := []
  GSH4 : List Nat := []
  GSH5 : List Nat := []
  EndTime : Nat := 0
  PreXK : List Nat := List.replicate 4 0
  PreXA : List Nat := List.replicate 4 0
  PreYK : List Nat := List.replicate 4 0
  PreYA : List Nat := List.replicate 4 0
  PreZK : List Nat := List.replicate 4 0
  PreZA : List Nat := List.replicate 4 0
  XB0K : Nat := 0
  XB0A : Nat := 0
  YB0K : Nat := 0
  YB0A : Nat := 0
  ZB0K : Nat := 0
  ZB0A : Nat := 0
  DummyParam1 : Nat := 0
  DummyParam2 : Nat := 0
  DummyPar1 : Nat := 0
  DummyPar2 : Nat := 0
  Dec90 : Nat := 0
  CPD : List Nat := []
  Trigger : Int := 0
  XB0 : Nat := 0
  YB0 : Nat := 0
  ZB0 : Nat := 0
  XOffset : Nat := 0
  YOffset : Nat := 0
  ZOffset : Nat := 0
  Acquisition : Int := 0

/- Class for storing Application parameters.  DB is declared 0.0 in the
   source but is read back as an int32, so its post-decode type is Int;
   MoreGains is declared float64 but is overwritten by a float32-read array. -/
structure AppParameters where
  SI : Int := 0
  DW : Nat := 0
  Pulses : List Nat := List.replicate 5 0
  RD : Nat := 0
  tau : Nat := 0
  Delays : List Nat := List.replicate 32 0
  NS : Int := 0
  FW : Nat := 0
  PH1 : List Nat := []
  PH2 : List Nat := []
  PH3 : List Nat := []
  PH4 : List Nat := []
  PH5 : List Nat := []
  RG : Nat := 0
  NECH : Int := 0
  SW : Nat := 0
  DB : Int := 0
  Bessel : Nat := 0
  Butterworth : Nat := 0
  SequenceName : List Nat := []
  RfAmps_ch0 : List Nat := List.replicate 6 0
  RfAmps_ch1 : List Nat := List.replicate 6 0
  WW : Nat := 0
  Counters : List Int := List.replicate 32 0
  GRead : Int := 0
  GPhase : Int := 0
  GSlice : Int := 0
  Gradients : List Int := List.replicate 32 0
  MAC1 : Nat := 0
  MAC2 : Nat := 0
  SH1 : List Nat := []
  SH2 : List Nat := []
  SH3 : List Nat := []
  SH4 : List Nat := []
  SH5 : List Nat := []
  DS : Int := 0
  NA : Int := 0
  GradientsIncrements : List Int := List.replicate 9 0
  DimX : Int := 0
  DimY : Int := 0
  DimZ : Int := 0
  DimC : Int := 0
  ImageEchos : Int := 0
  ImageSlices : Int := 0
  GradPhase : List Nat := []
  GradSlice : List Nat := []
  GradRead : List Nat := []
  TimePoints : Int := 0
  SNR : Int := 0
  FPs : List Nat := List.replicate 5 0
  GREADX : Nat := 0
  GREADY : Nat := 0
  GREADZ : Nat := 0
  GPHASEX : Nat := 0
  GPHASEY : Nat := 0
  GPHASEZ : Nat := 0
  GSLICEX : Nat := 0
  GSLICEY : Nat := 0
  GSLICEZ : Nat := 0
  MoreGains : List Nat := List.replicate 9 0

/- Class for storing Processing parameters (ProcDummies is None until the
   reader assigns the 9-element int array; the pre-read value is never
   observable through the reader, so the field is a plain list here). -/
structure ProcessingParameters where
  ProcFlags : Int := 0
  ProcDummies : List Int := []
  LB : Nat := 0
  PA : Nat := 0
  PB : Nat := 0
  DP : Nat := 0
  SMP : Int := 0
  PivotPoint : Int := 0
  NOBC : Int := 0
  PPRF : Int := 0
  PPTH : Nat := 0
  PPBL : Nat := 0
  PPAF : Int := 0
  INC2D : Nat := 0
  SD2D : Nat := 0

structure AcquisitionParameters where
  sys : SysParameters := {}
  app : AppParameters := {}
  proc : ProcessingParameters := {}
  title : List Nat := []

/- The file header: magic and version are validated and dropped, the four
   section sizes and the comment are kept. -/
structure Header where
  Sect1Size : Int := 0
  Sect2Size : Int := 0
  Sect3Size : Int := 0
  Sect4Size : Int := 0
  Comment : List Nat := []
deriving DecidableEq

/- What read_ridat_file returns: the three signal sequences and the
   aggregated parameters. -/
structure RidatResult where
  time : List Nat := []
  real : List Nat := []
  imag : List Nat := []
  params : AcquisitionParameters := {}

/- sanity check for the file: if magic number is not 190955, this is not a
   .RiImage or .RiDat file (source lines 206-208). -/
def checkMagic (m : Int) : ByteReader Unit :=
  if m = 190955 then pure () else rfail .InvalidMagic

/- file version check (source lines 211-215): version 1 is RiImage
   (rejected), anything other than 0 is unknown. -/
def checkVersion (v : Int) : ByteReader Unit :=
  if v = 1 then rfail .UnsupportedFormat
  else if v = 0 then pure ()
  else rfail .UnknownVersion

/- The header reads before the end-of-header sentinel (source lines
   205-222). -/
def headerFields : ByteReader Header := do
  let magic_number ← read_int_from_file
  checkMagic magic_number
  let file_version ← read_int_from_file
  checkVersion file_version
  let Sect1Size ← read_int_from_file
  let Sect2Size ← read_int_from_file
  let Sect3Size ← read_int_from_file
  let Sect4Size ← read_int_from_file
  let Comment ← read_string_from_file 128
  pure { Sect1Size, Sect2Size, Sect3Size, Sect4Size, Comment }

/- The whole header, including the read-and-discarded IdEndMark. -/
def headerP : ByteReader Header := do
  let h ← headerFields
  let _IdEndMark ← read_int_from_file
  pure h

/- The 18 int32 trim fields of one RF channel (quadtrim is read later and
   patched in afterwards, as in the source). -/
def read_rf_trims (SF Offset : Nat) : ByteReader RfChannelsParameters := do
  let MultReg ← read_int_from_file
  let PhaseTwiddle ← read_int_from_file
  let ChanAOffset ← read_int_from_file
  let ChanBOffset ← read_int_from_file
  let ExtAPhaseTrim ← read_int_from_file
  let ExtAAmpTrim ← read_int_from_file
  let ExtBPhaseTrim ← read_int_from_file
  let ExtBAmpTrim ← read_int_from_file
  let IntAAmpTrim ← read_int_from_file
  let IntBAmpTrim ← read_int_from_file
  let PhaseTrim0 ← read_int_from_file
  let AmpTrim0 ← read_int_from_file
  let PhaseTrim90 ← read_int_from_file
  let AmpTrim90 ← read_int_from_file
  let PhaseTrim180 ← read_int_from_file
  let AmpTrim180 ← read_int_from_file
  let PhaseTrim270 ← read_int_from_file
  let AmpTrim270 ← read_int_from_file
  pure { SF, Offset, MultReg, PhaseTwiddle, ChanAOffset, ChanBOffset,
         ExtAPhaseTrim, ExtAAmpTrim, ExtBPhaseTrim, ExtBAmpTrim,
         IntAAmpTrim, IntBAmpTrim, PhaseTrim0, AmpTrim0, PhaseTrim90,
         AmpTrim90, PhaseTrim180, AmpTrim180, PhaseTrim270, AmpTrim270 }

/- System-parameters section field reads (source lines 228-358). -/
def sysFields : ByteReader SysParameters := do
  let Dead1 ← read_float_from_file
  let Dead2 ← read_float_from_file
  let P90 ← read_float_from_file
  let P180 ← read_float_from_file
  let sf0 ← read_double_from_file
  let off0 ← read_double_from_file
  let _Dummy1 ← read_int_from_file
  let ch0 ← read_rf_trims sf0 off0
  let sf1 ← read_double_from_file
  let off1 ← read_double_from_file
  let ch1 ← read_rf_trims sf1 off1
  let sf2 ← read_double_from_file
  let off2 ← read_double_from_file
  let ch2 ← read_rf_trims sf2 off2
  let q0 ← read_int_from_file
  let q1 ← read_int_from_file
  let q2 ← read_int_from_file
  let GSH1 ← read_string_from_file 20
  let GSH2 ← read_string_from_file 20
  let GSH3 ← read_string_from_file 20
  let GSH4 ← read_string_from_file 20
  let GSH5 ← read_string_from_file 20
  let EndTime ← read_double_from_file
  let xk0 ← read_float_from_file
  let xa0 ← read_float_from_file
  let xk1 ← read_float_from_file
  let xa1 ← read_float_from_file
  let xk2 ← read_float_from_file
  let xa2 ← read_float_from_file
  let xk3 ← read_float_from_file
  let xa3 ← read_float_from_file
  let yk0 ← read_float_from_file
  let ya0 ← read_float_from_file
  let yk1 ← read_float_from_file
  let ya1 ← read_float_from_file
  let yk2 ← read_float_from_file
  let ya2 ← read_float_from_file
  let yk3 ← read_float_from_file
  let ya3 ← read_float_from_file
  let zk0 ← read_float_from_file
  let za0 ← read_float_from_file
  let zk1 ← read_float_from_file
  let za1 ← read_float_from_file
  let zk2 ← read_float_from_file
  let za2 ← read_float_from_file
  let zk3 ← read_float_from_file
  let za3 ← read_float_from_file
  let XB0K ← read_float_from_file
  let XB0A ← read_float_from_file
  let YB0K ← read_float_from_file
  let YB0A ← read_float_from_file
  let ZB0K ← read_float_from_file
  let ZB0A ← read_float_from_file
  let DummyPar1 ← read_float_from_file
  let DummyPar2 ← read_float_from_file
  let Dec90 ← read_float_from_file
  let CPD ← read_string_from_file 20
  let Trigger ← read_int_from_file
  let XB0 ← read_float_from_file
  let YB0 ← read_float_from_file
  let ZB0 ← read_float_from_file
  let XOffset ← read_float_from_file
  let YOffset ← read_float_from_file
  let ZOffset ← read_float_from_file
  let Acquisition ← read_int_from_file
  pure { Dead1, Dead2, P90, P180,
         rf_channels := [{ ch0 with quadtrim := q0 },
                         { ch1 with quadtrim := q1 },
                         { ch2 with quadtrim := q2 }],
         GSH1, GSH2, GSH3, GSH4, GSH5, EndTime,
         PreXK := [xk0, xk1, xk2, xk3], PreXA := [xa0, xa1, xa2, xa3],
         PreYK := [yk0, yk1, yk2, yk3], PreYA := [ya0, ya1, ya2, ya3],
         PreZK := [zk0, zk1, zk2, zk3], PreZA := [za0, za1, za2, za3],
         XB0K, XB0A, YB0K, YB0A, ZB0K, ZB0A,
         DummyPar1, DummyPar2, Dec90, CPD, Trigger,
         XB0, YB0, ZB0, XOffset, YOffset, ZOffset, Acquisition }

/- System section: fields then one read-and-discarded end mark. -/
def sysSection : ByteReader SysParameters := do
  let sp ← sysFields
  let _SysEndMark ← read_int_from_file
  pure sp

/- Application-parameters section field reads (source lines 365-431). -/
def appFields : ByteReader AppParameters := do
  let SI ← read_int_from_file
  let DW ← read_float_from_file
  let Pulses ← read_data_sequence_from_file read_float_from_file 5
  let RD ← read_float_from_file
  let tau ← read_float_from_file
  let delays05 ← read_data_sequence_from_file read_float_from_file 5
  let NS ← read_int_from_file
  let FW ← read_float_from_file
  let PH1 ← read_string_from_file 132
  let PH2 ← read_string_from_file 132
  let PH3 ← read_string_from_file 132
  let PH4 ← read_string_from_file 132
  let PH5 ← read_string_from_file 132
  let RG ← read_float_from_file
  let NECH ← read_int_from_file
  let SW ← read_double_from_file
  let DB ← read_int_from_file
  let Bessel ← read_double_from_file
  let Butterworth ← read_double_from_file
  let SequenceName ← read_string_from_file 32
  let RfAmps_ch0 ← read_data_sequence_from_file read_float_from_file 6
  let RfAmps_ch1 ← read_data_sequence_from_file read_float_from_file 6
  let WW ← read_float_from_file
  let counters05 ← read_data_sequence_from_file read_int_from_file 5
  let GRead ← read_int_from_file
  let GPhase ← read_int_from_file
  let GSlice ← read_int_from_file
  let gradients09 ← read_data_sequence_from_file read_int_from_file 9
  let MAC1 ← read_float_from_file
  let MAC2 ← read_float_from_file
  let SH1 ← read_string_from_file 20
  let SH2 ← read_string_from_file 20
  let SH3 ← read_string_from_file 20
  let SH4 ← read_string_from_file 20
  let SH5 ← read_string_from_file 20
  let DS ← read_int_from_file
  let NA ← read_int_from_file
  let GradientsIncrements ← read_data_sequence_from_file read_int_from_file 9
  let DimX ← read_int_from_file
  let DimY ← read_int_from_file
  let DimZ ← read_int_from_file
  let DimC ← read_int_from_file
  let ImageEchos ← read_int_from_file
  let ImageSlices ← read_int_from_file
  let delays512 ← read_data_sequence_from_file read_float_from_file 7
  let GradPhase ← read_string_from_file 4
  let GradSlice ← read_string_from_file 4
  let GradRead ← read_string_from_file 4
  let TimePoints ← read_int_from_file
  let SNR ← read_int_from_file
  let counters512 ← read_data_sequence_from_file read_int_from_file 7
  let FPs ← read_data_sequence_from_file read_float_from_file 5
  let GREADX ← read_float_from_file
  let GREADY ← read_float_from_file
  let GREADZ ← read_float_from_file
  let GPHASEX ← read_float_from_file
  let GPHASEY ← read_float_from_file
  let GPHASEZ ← read_float_from_file
  let GSLICEX ← read_float_from_file
  let GSLICEY ← read_float_from_file
  let GSLICEZ ← read_float_from_file
  let delays1232 ← read_data_sequence_from_file read_float_from_file 20
  let counters1232 ← read_data_sequence_from_file read_int_from_file 20
  let gradients932 ← read_data_sequence_from_file read_int_from_file 23
  let MoreGains ← read_data_sequence_from_file read_float_from_file 9
  pure { SI, DW, Pulses, RD, tau,
         Delays := setSlice (setSlice (setSlice (List.replicate 32 0) 0 delays05) 5 delays512) 12 delays1232,
         NS, FW, PH1, PH2, PH3, PH4, PH5, RG, NECH, SW, DB, Bessel, Butterworth,
         SequenceName, RfAmps_ch0, RfAmps_ch1, WW,
         Counters := setSlice (setSlice (setSlice (List.replicate 32 0) 0 counters05) 5 counters512) 12 counters1232,
         GRead, GPhase, GSlice,
         Gradients := setSlice (setSlice (List.replicate 32 0) 0 gradients09) 9 gradients932,
         MAC1, MAC2, SH1, SH2, SH3, SH4, SH5, DS, NA, GradientsIncrements,
         DimX, DimY, DimZ, DimC, ImageEchos, ImageSlices,
         GradPhase, GradSlice, GradRead, TimePoints, SNR, FPs,
         GREADX, GREADY, GREADZ, GPHASEX, GPHASEY, GPHASEZ,
         GSLICEX, GSLICEY, GSLICEZ, MoreGains }

/- Application section: fields then one read-and-discarded end mark. -/
def appSection : ByteReader AppParameters := do
  let ap ← appFields
  let _AppEndMark ← read_int_from_file
  pure ap

/- Processing-parameters section field reads (source lines 438-454). -/
def procFields : ByteReader ProcessingParameters := do
  let ProcFlags ← read_int_from_file
  let ProcDummies ← read_data_sequence_from_file read_int_from_file 9
  let LB ← read_float_from_file
  let PA ← read_float_from_file
  let PB ← read_float_from_file
  let DP ← read_float_from_file
  let SMP ← read_int_from_file
  let PivotPoint ← read_int_from_file
  let NOBC ← read_int_from_file
  let PPRF ← read_int_from_file
  let PPTH ← read_double_from_file
  let PPBL ← read_double_from_file
  let PPAF ← read_int_from_file
  let INC2D ← read_float_from_file
  let SD2D ← read_double_from_file
  pure { ProcFlags, ProcDummies, LB, PA, PB, DP, SMP, PivotPoint, NOBC,
         PPRF, PPTH, PPBL, PPAF, INC2D, SD2D }

/- Processing section: fields then one read-and-discarded end mark. -/
def procSection : ByteReader ProcessingParameters := do
  let pp ← procFields
  let _ProcEndMark ← read_int_from_file
  pure pp

/- The data loop (source lines 463-469): one record is a float32 real, a
   float32 imag and a float64 time, 16 bytes in all; real, imag and time
   are appended one at a time inside try, so when the stream runs out
   mid-record the values already read in that iteration stay appended
   (real needs 4 bytes ahead, imag 8, time the full 16).  Returns
   (real_values, imag_values, time_values). -/
def signal_read_loop : List Nat -> List Nat × List Nat × List Nat
  | b0 :: b1 :: b2 :: b3 :: b4 :: b5 :: b6 :: b7 :: b8 :: b9 :: b10 :: b11 :: b12 ::
      b13 :: b14 :: b15 :: rest =>
    let p := signal_read_loop rest
    (leNat [b0, b1, b2, b3] :: p.1, leNat [b4, b5, b6, b7] :: p.2.1,
     leNat [b8, b9, b10, b11, b12, b13, b14, b15] :: p.2.2)
  | bs =>
    ((if 4 <= bs.length then [leNat (bs.take 4)] else []),
     (if 8 <= bs.length then [leNat ((bs.drop 4).take 4)] else []),
     [])

/- file.seek(i): OSError on a negative target, otherwise the new absolute
   cursor position. -/
def seekTo (i : Int) : Except Err Nat :=
  if i < 0 then .error .NegativeSeek else .ok i.toNat

/- This is the main thing (source lines 202-479). -/
def read_ridat_file (bs : List Nat) : Except Err RidatResult := do
  let hp ← headerP bs
  let hd := hp.1
  let o2 ← seekTo hd.Sect1Size
  let sp ← sysSection (bs.drop o2)
  let o3 ← seekTo (hd.Sect1Size + hd.Sect2Size)
  let ap ← appSection (bs.drop o3)
  let o4 ← seekTo (hd.Sect1Size + hd.Sect2Size + hd.Sect3Size)
  let pp ← procSection (bs.drop o4)
  let oD ← seekTo (hd.Sect1Size + hd.Sect2Size + hd.Sect3Size + hd.Sect4Size)
  let dat := signal_read_loop (bs.drop oD)
  pure { time := dat.2.2, real := dat.1, imag := dat.2.1,
         params := { sys := sp.1, app := ap.1, proc := pp.1, title := hd.Comment } }

/- numpy assignment data[:, k] = src into a column of length n: requires
   src to have length n, or length 1 (broadcast). -/
def broadcastTo (n : Nat) (src : List Nat) : Except Err (List Nat) :=
  if src.length = n then .ok src
  else if src.length = 1 then .ok (List.replicate n (src.headD 0))
  else .error .BroadcastMismatch

/- this function opens a .RiDat and saves the time, real and imag data into
   a text file (source lines 484-491), modelled as the list of output lines.
   fmt is the numeric formatter np.savetxt applies to each float64 value
   (default %.18e); the produced text of a float is floating-point
   territory, so it is a parameter here. -/
def export_ridat_data_to_text_file (fmt : Nat → List Char) (bs : List Nat)
    (delimiter : List Char) : Except Err (List (List Char)) :=
  if delimiter = [] then .error .EmptyDelimiter
  else
    match read_ridat_file bs with
    | .error e => .error e
    | .ok r =>
      match broadcastTo r.time.length r.real, broadcastTo r.time.length r.imag with
      | .ok col1, .ok col2 =>
        .ok ((['#', ' '] ++ "Time (us)".toList ++ delimiter ++ "Real (Machine Units)".toList
               ++ delimiter ++ "Imag (Machine Units)".toList)
             :: (r.time.zip (col1.zip col2)).map
                  (fun p => fmt p.1 ++ delimiter ++ fmt p.2.1 ++ delimiter ++ fmt p.2.2))
      | .error e, _ => .error e
      | _, .error e => .error e

/- Canonical little-endian byte image of n in k bytes. -/
def bytesOfNat (k n : Nat) : List Nat := (List.range k).map (fun i => n / 256 ^ i % 256)

/- Encoders producing the byte layout read_ridat_file reads back: one per
   primitive wire type. -/
def enc_int32 (n : Int) : List Nat := bytesOfNat 4 (n % (2 ^ 32)).toNat

def enc_f32 (p : Nat) : List Nat := bytesOfNat 4 p

def enc_f64 (p : Nat) : List Nat := bytesOfNat 8 p

def enc_str (n : Nat) (s : List Nat) : List Nat := s ++ List.replicate (n - s.length) 0

def enc_f32seq (l : List Nat) : List Nat := (l.map enc_f32).flatten

def enc_i32seq (l : List Int) : List Nat := (l.map enc_int32).flatten

def rfDefault : RfChannelsParameters := {}

/- The i-th RF channel of a SysParameters value. -/
def sysCh (v : SysParameters) (i : Nat) : RfChannelsParameters := v.rf_channels.getD i rfDefault

/- Byte image of the 18 trim ints of one RF channel. -/
def rfTrimBytes (c : RfChannelsParameters) : List Nat :=
  enc_int32 c.MultReg ++ enc_int32 c.PhaseTwiddle ++ enc_int32 c.ChanAOffset ++
  enc_int32 c.ChanBOffset ++ enc_int32 c.ExtAPhaseTrim ++ enc_int32 c.ExtAAmpTrim ++
  enc_int32 c.ExtBPhaseTrim ++ enc_int32 c.ExtBAmpTrim ++ enc_int32 c.IntAAmpTrim ++
  enc_int32 c.IntBAmpTrim ++ enc_int32 c.PhaseTrim0 ++ enc_int32 c.AmpTrim0 ++
  enc_int32 c.PhaseTrim90 ++ enc_int32 c.AmpTrim90 ++ enc_int32 c.PhaseTrim180 ++
  enc_int32 c.AmpTrim180 ++ enc_int32 c.PhaseTrim270 ++ enc_int32 c.AmpTrim270

/- Byte image of the 588 System field bytes, in the exact wire order of
   sysFields. -/
def sysFieldsBytes (v : SysParameters) : List Nat :=
  enc_f32 v.Dead1 ++ enc_f32 v.Dead2 ++ enc_f32 v.P90 ++ enc_f32 v.P180 ++
  enc_f64 (sysCh v 0).SF ++ enc_f64 (sysCh v 0).Offset ++ enc_int32 0 ++ rfTrimBytes (sysCh v 0) ++
  enc_f64 (sysCh v 1).SF ++ enc_f64 (sysCh v 1).Offset ++ rfTrimBytes (sysCh v 1) ++
  enc_f64 (sysCh v 2).SF ++ enc_f64 (sysCh v 2).Offset ++ rfTrimBytes (sysCh v 2) ++
  enc_int32 (sysCh v 0).quadtrim ++ enc_int32 (sysCh v 1).quadtrim ++ enc_int32 (sysCh v 2).quadtrim ++
  enc_str 20 v.GSH1 ++ enc_str 20 v.GSH2 ++ enc_str 20 v.GSH3 ++ enc_str 20 v.GSH4 ++ enc_str 20 v.GSH5 ++
  enc_f64 v.EndTime ++
  enc_f32 (v.PreXK.getD 0 0) ++ enc_f32 (v.PreXA.getD 0 0) ++
  enc_f32 (v.PreXK.getD 1 0) ++ enc_f32 (v.PreXA.getD 1 0) ++
  enc_f32 (v.PreXK.getD 2 0) ++ enc_f32 (v.PreXA.getD 2 0) ++
  enc_f32 (v.PreXK.getD 3 0) ++ enc_f32 (v.PreXA.getD 3 0) ++
  enc_f32 (v.PreYK.getD 0 0) ++ enc_f32 (v.PreYA.getD 0 0) ++
  enc_f32 (v.PreYK.getD 1 0) ++ enc_f32 (v.PreYA.getD 1 0) ++
  enc_f32 (v.PreYK.getD 2 0) ++ enc_f32 (v.PreYA.getD 2 0) ++
  enc_f32 (v.PreYK.getD 3 0) ++ enc_f32 (v.PreYA.getD 3 0) ++
  enc_f32 (v.PreZK.getD 0 0) ++ enc_f32 (v.PreZA.getD 0 0) ++
  enc_f32 (v.PreZK.getD 1 0) ++ enc_f32 (v.PreZA.getD 1 0) ++
  enc_f32 (v.PreZK.getD 2 0) ++ enc_f32 (v.PreZA.getD 2 0) ++
  enc_f32 (v.PreZK.getD 3 0) ++ enc_f32 (v.PreZA.getD 3 0) ++
  enc_f32 v.XB0K ++ enc_f32 v.XB0A ++ enc_f32 v.YB0K ++ enc_f32 v.YB0A ++
  enc_f32 v.ZB0K ++ enc_f32 v.ZB0A ++
  enc_f32 v.DummyPar1 ++ enc_f32 v.DummyPar2 ++
  enc_f32 v.Dec90 ++ enc_str 20 v.CPD ++ enc_int32 v.Trigger ++
  enc_f32 v.XB0 ++ enc_f32 v.YB0 ++ enc_f32 v.ZB0 ++
  enc_f32 v.XOffset ++ enc_f32 v.YOffset ++ enc_f32 v.ZOffset ++
  enc_int32 v.Acquisition

/- Byte image of the System section: fields plus the 4-byte end mark. -/
def sysBytes (v : SysParameters) : List Nat := sysFieldsBytes v ++ enc_int32 0

/- Byte image of the 1508 Application field bytes, in the exact wire order
   of appFields. -/
def appFieldsBytes (v : AppParameters) : List Nat :=
  enc_int32 v.SI ++ enc_f32 v.DW ++ enc_f32seq v.Pulses ++ enc_f32 v.RD ++ enc_f32 v.tau ++
  enc_f32seq (v.Delays.take 5) ++ enc_int32 v.NS ++ enc_f32 v.FW ++
  enc_str 132 v.PH1 ++ enc_str 132 v.PH2 ++ enc_str 132 v.PH3 ++ enc_str 132 v.PH4 ++ enc_str 132 v.PH5 ++
  enc_f32 v.RG ++ enc_int32 v.NECH ++ enc_f64 v.SW ++ enc_int32 v.DB ++
  enc_f64 v.Bessel ++ enc_f64 v.Butterworth ++ enc_str 32 v.SequenceName ++
  enc_f32seq v.RfAmps_ch0 ++ enc_f32seq v.RfAmps_ch1 ++ enc_f32 v.WW ++
  enc_i32seq (v.Counters.take 5) ++ enc_int32 v.GRead ++ enc_int32 v.GPhase ++ enc_int32 v.GSlice ++
  enc_i32seq (v.Gradients.take 9) ++ enc_f32 v.MAC1 ++ enc_f32 v.MAC2 ++
  enc_str 20 v.SH1 ++ enc_str 20 v.SH2 ++ enc_str 20 v.SH3 ++ enc_str 20 v.SH4 ++ enc_str 20 v.SH5 ++
  enc_int32 v.DS ++ enc_int32 v.NA ++ enc_i32seq v.GradientsIncrements ++
  enc_int32 v.DimX ++ enc_int32 v.DimY ++ enc_int32 v.DimZ ++ enc_int32 v.DimC ++
  enc_int32 v.ImageEchos ++ enc_int32 v.ImageSlices ++
  enc_f32seq ((v.Delays.drop 5).take 7) ++
  enc_str 4 v.GradPhase ++ enc_str 4 v.GradSlice ++ enc_str 4 v.GradRead ++
  enc_int32 v.TimePoints ++ enc_int32 v.SNR ++
  enc_i32seq ((v.Counters.drop 5).take 7) ++ enc_f32seq v.FPs ++
  enc_f32 v.GREADX ++ enc_f32 v.GREADY ++ enc_f32 v.GREADZ ++
  enc_f32 v.GPHASEX ++ enc_f32 v.GPHASEY ++ enc_f32 v.GPHASEZ ++
  enc_f32 v.GSLICEX ++ enc_f32 v.GSLICEY ++ enc_f32 v.GSLICEZ ++
  enc_f32seq (v.Delays.drop 12) ++ enc_i32seq (v.Counters.drop 12) ++
  enc_i32seq (v.Gradients.drop 9) ++ enc_f32seq v.MoreGains

/- Byte image of the Application section: fields plus the 4-byte end mark. -/
def appBytes (v : AppParameters) : List Nat := appFieldsBytes v ++ enc_int32 0

/- Byte image of the 104 Processing field bytes, in the exact wire order of
   procFields. -/
def procFieldsBytes (v : ProcessingParameters) : List Nat :=
  enc_int32 v.ProcFlags ++ enc_i32seq v.ProcDummies ++
  enc_f32 v.LB ++ enc_f32 v.PA ++ enc_f32 v.PB ++ enc_f32 v.DP ++
  enc_int32 v.SMP ++ enc_int32 v.PivotPoint ++ enc_int32 v.NOBC ++ enc_int32 v.PPRF ++
  enc_f64 v.PPTH ++ enc_f64 v.PPBL ++ enc_int32 v.PPAF ++ enc_f32 v.INC2D ++
  enc_f64 v.SD2D

/- Byte image of the Processing section: fields plus the 4-byte end mark. -/
def procBytes (v : ProcessingParameters) : List Nat := procFieldsBytes v ++ enc_int32 0

/- Byte image of the header fields before the end-of-header mark, with the
   canonical section sizes Sect1Size = 156 (header length), Sect2Size = 592
   (System section length), Sect3Size = 1512 (Application section length),
   Sect4Size = 108 (Processing section length). -/
def headerFieldsBytes (comment : List Nat) : List Nat :=
  enc_int32 190955 ++ enc_int32 0 ++ enc_int32 156 ++ enc_int32 592 ++
  enc_int32 1512 ++ enc_int32 108 ++ enc_str 128 comment

/- Byte image of the whole 156-byte header. -/
def headerBytes (comment : List Nat) : List Nat :=
  headerFieldsBytes comment ++ enc_int32 0

/- Byte image of the data section: one (real, imag, time) record per
   sample. -/
def enc_data : List Nat → List Nat → List Nat → List Nat
  | r :: rs, i :: iss, t :: ts => enc_f32 r ++ enc_f32 i ++ enc_f64 t ++ enc_data rs iss ts
  | _, _, _ => []

/- Byte image of a whole file per the documented fixed layout. -/
def encodeRidat (v : RidatResult) : List Nat :=
  headerBytes v.params.title ++ sysBytes v.params.sys ++ appBytes v.params.app ++
  procBytes v.params.proc ++ enc_data v.real v.imag v.time

/- Well-formedness of field values for the round trip: numeric values fit
   their wire type, strings fit their field and carry no trailing NUL,
   arrays have the wire lengths, and the never-read declared fields
   DummyParam1/DummyParam2 hold their initial value. -/
def i32OK (n : Int) : Prop := -(2 ^ 31) ≤ n ∧ n < 2 ^ 31

def f32OK (p : Nat) : Prop := p < 2 ^ 32

def f64OK (p : Nat) : Prop := p < 2 ^ 64

def strOK (n : Nat) (s : List Nat) : Prop :=
  s.length ≤ n ∧ utf8Valid s = true ∧ s.getLast? ≠ some 0

def f32seqOK (n : Nat) (l : List Nat) : Prop := l.length = n ∧ ∀ x ∈ l, f32OK x

def i32seqOK (n : Nat) (l : List Int) : Prop := l.length = n ∧ ∀ x ∈ l, i32OK x

def rfOK (c : RfChannelsParameters) : Prop :=
  f64OK c.SF ∧ f64OK c.Offset ∧ i32OK c.MultReg ∧ i32OK c.PhaseTwiddle ∧
  i32OK c.ChanAOffset ∧ i32OK c.ChanBOffset ∧ i32OK c.ExtAPhaseTrim ∧
  i32OK c.ExtAAmpTrim ∧ i32OK c.ExtBPhaseTrim ∧ i32OK c.ExtBAmpTrim ∧
  i32OK c.IntAAmpTrim ∧ i32OK c.IntBAmpTrim ∧ i32OK c.PhaseTrim0 ∧
  i32OK c.AmpTrim0 ∧ i32OK c.PhaseTrim90 ∧ i32OK c.AmpTrim90 ∧
  i32OK c.PhaseTrim180 ∧ i32OK c.AmpTrim180 ∧ i32OK c.PhaseTrim270 ∧
  i32OK c.AmpTrim270 ∧ i32OK c.quadtrim

def WFsys (v : SysParameters) : Prop :=
  f32OK v.Dead1 ∧ f32OK v.Dead2 ∧ f32OK v.P90 ∧ f32OK v.P180 ∧
  v.rf_channels.length = 3 ∧ (∀ c ∈ v.rf_channels, rfOK c) ∧
  strOK 20 v.GSH1 ∧ strOK 20 v.GSH2 ∧ strOK 20 v.GSH3 ∧ strOK 20 v.GSH4 ∧ strOK 20 v.GSH5 ∧
  f64OK v.EndTime ∧
  f32seqOK 4 v.PreXK ∧ f32seqOK 4 v.PreXA ∧ f32seqOK 4 v.PreYK ∧ f32seqOK 4 v.PreYA ∧
  f32seqOK 4 v.PreZK ∧ f32seqOK 4 v.PreZA ∧
  f32OK v.XB0K ∧ f32OK v.XB0A ∧ f32OK v.YB0K ∧ f32OK v.YB0A ∧ f32OK v.ZB0K ∧ f32OK v.ZB0A ∧
  v.DummyParam1 = 0 ∧ v.DummyParam2 = 0 ∧ f32OK v.DummyPar1 ∧ f32OK v.DummyPar2 ∧
  f32OK v.Dec90 ∧ strOK 20 v.CPD ∧ i32OK v.Trigger ∧
  f32OK v.XB0 ∧ f32OK v.YB0 ∧ f32OK v.ZB0 ∧
  f32OK v.XOffset ∧ f32OK v.YOffset ∧ f32OK v.ZOffset ∧ i32OK v.Acquisition

def WFapp (v : AppParameters) : Prop :=
  i32OK v.SI ∧ f32OK v.DW ∧ f32seqOK 5 v.Pulses ∧ f32OK v.RD ∧ f32OK v.tau ∧
  f32seqOK 32 v.Delays ∧ i32OK v.NS ∧ f32OK v.FW ∧
  strOK 132 v.PH1 ∧ strOK 132 v.PH2 ∧ strOK 132 v.PH3 ∧ strOK 132 v.PH4 ∧ strOK 132 v.PH5 ∧
  f32OK v.RG ∧ i32OK v.NECH ∧ f64OK v.SW ∧ i32OK v.DB ∧ f64OK v.Bessel ∧ f64OK v.Butterworth ∧
  strOK 32 v.SequenceName ∧ f32seqOK 6 v.RfAmps_ch0 ∧ f32seqOK 6 v.RfAmps_ch1 ∧ f32OK v.WW ∧
  i32seqOK 32 v.Counters ∧ i32OK v.GRead ∧ i32OK v.GPhase ∧ i32OK v.GSlice ∧
  i32seqOK 32 v.Gradients ∧ f32OK v.MAC1 ∧ f32OK v.MAC2 ∧
  strOK 20 v.SH1 ∧ strOK 20 v.SH2 ∧ strOK 20 v.SH3 ∧ strOK 20 v.SH4 ∧ strOK 20 v.SH5 ∧
  i32OK v.DS ∧ i32OK v.NA ∧ i32seqOK 9 v.GradientsIncrements ∧
  i32OK v.DimX ∧ i32OK v.DimY ∧ i32OK v.DimZ ∧ i32OK v.DimC ∧
  i32OK v.ImageEchos ∧ i32OK v.ImageSlices ∧
  strOK 4 v.GradPhase ∧ strOK 4 v.GradSlice ∧ strOK 4 v.GradRead ∧
  i32OK v.TimePoints ∧ i32OK v.SNR ∧ f32seqOK 5 v.FPs ∧
  f32OK v.GREADX ∧ f32OK v.GREADY ∧ f32OK v.GREADZ ∧
  f32OK v.GPHASEX ∧ f32OK v.GPHASEY ∧ f32OK v.GPHASEZ ∧
  f32OK v.GSLICEX ∧ f32OK v.GSLICEY ∧ f32OK v.GSLICEZ ∧ f32seqOK 9 v.MoreGains

def WFproc (v : ProcessingParameters) : Prop :=
  i32OK v.ProcFlags ∧ i32seqOK 9 v.ProcDummies ∧
  f32OK v.LB ∧ f32OK v.PA ∧ f32OK v.PB ∧ f32OK v.DP ∧
  i32OK v.SMP ∧ i32OK v.PivotPoint ∧ i32OK v.NOBC ∧ i32OK v.PPRF ∧
  f64OK v.PPTH ∧ f64OK v.PPBL ∧ i32OK v.PPAF ∧ f32OK v.INC2D ∧ f64OK v.SD2D

def WF (v : RidatResult) : Prop :=
  WFsys v.params.sys ∧ WFapp v.params.app ∧ WFproc v.params.proc ∧
  strOK 128 v.params.title ∧
  v.real.length = v.time.length ∧ v.imag.length = v.time.length ∧
  (∀ x ∈ v.real, f32OK x) ∧ (∀ x ∈ v.imag, f32OK x) ∧ (∀ x ∈ v.time, f64OK x)

/- Two byte lists of equal length that agree on their first n bytes. -/
def agreeTo (n : Nat) (b1 b2 : List Nat) : Prop :=
  b1.length = b2.length ∧ b1.take n = b2.take n

/- Relates two reader outcomes: same failure, or same value with leftovers
   that still agree to depth m. -/
def RelR {α : Type} (m : Nat) (x y : Except Err (α × List Nat)) : Prop :=
  match x, y with
  | .error e1, .error e2 => e1 = e2
  | .ok (a1, l1), .ok (a2, l2) => a1 = a2 ∧ agreeTo m l1 l2
  | .error _, .ok _ => False
  | .ok _, .error _ => False

/- p only looks at the first n bytes ahead of the cursor (and the total
   length): its footprint is n. -/
def PLoc {α : Type} (p : ByteReader α) (n : Nat) : Prop :=
  ∀ m b1 b2, agreeTo (n + m) b1 b2 → RelR m (p b1) (p b2)

/- The byte positions holding the four read-and-discarded sentinels, for a
   file whose header is hd: the end-of-header mark at 152, and the three
   section end marks right after each section's field reads. -/
def sentinelPos (hd : Header) (i : Nat) : Prop :=
  (152 ≤ i ∧ i < 156) ∨
  (hd.Sect1Size.toNat + 588 ≤ i ∧ i < hd.Sect1Size.toNat + 592) ∨
  ((hd.Sect1Size + hd.Sect2Size).toNat + 1508 ≤ i ∧
    i < (hd.Sect1Size + hd.Sect2Size).toNat + 1512) ∨
  ((hd.Sect1Size + hd.Sect2Size + hd.Sect3Size).toNat + 104 ≤ i ∧
    i < (hd.Sect1Size + hd.Sect2Size + hd.Sect3Size).toNat + 108)

/- All-default result value: empty comment and strings, zero numeric
   fields, no data samples. -/
def v0 : RidatResult := { params := { proc := { ProcDummies := List.replicate 9 0 } } }

/- Like v0 but with three data samples. -/
def v3 : RidatResult :=
  { time := [1, 2, 3], real := [4, 5, 6], imag := [7, 8, 9],
    params := { proc := { ProcDummies := List.replicate 9 0 } } }

/- A concrete 1524-byte file: valid magic, version 0, all four section
   sizes 0 (so every section and the data region start at offset 0 and
   overlap the header), everything past the first 8 bytes zero.  The data
   region is the whole file: 1524 = 16 * 95 + 4 bytes, so the final partial
   record has exactly the 4 bytes of its real component. -/
def c1bs : List Nat := [235, 233, 2, 0] ++ List.replicate 1520 0

/- A concrete 1536-byte file: sizes (0, 0, 0, 12), so the data region
   starts at offset 0 + 0 + 0 + 12 = 12 and holds 1524 = 16 * 95 + 4
   bytes, while the region headed by offset Sect1Size + Sect2Size +
   Sect3Size = 0 holds 1536 = 16 * 96 bytes. -/
def c2bs : List Nat :=
  [235, 233, 2, 0] ++ List.replicate 16 0 ++ [12, 0, 0, 0] ++ List.replicate 1512 0

/- The header of encodeRidat v0. -/
def hd0 : Header := { Sect1Size := 156, Sect2Size := 592, Sect3Size := 1512, Sect4Size := 108 }

/- The header c1bs decodes to: all four section sizes 0, empty comment. -/
def hdZ : Header := { Sect1Size := 0, Sect2Size := 0, Sect3Size := 0, Sect4Size := 0 }

/- A comma-free one-character numeric formatter, standing in for %.18e in
   witnesses. -/
def fmt0 : Nat → List Char := fun _ => ['0']

/- The value part of a reader outcome, forgetting the leftover stream (the
   top-level reader only ever uses the value of each section parse). -/
def outVal {α : Type} (r : Except Err (α × List Nat)) : Except Err α :=
  r.map Prod.fst

instance {ε α : Type} [DecidableEq ε] [DecidableEq α] : DecidableEq (Except ε α) := fun x y =>
  match x, y with
  | .error a, .error b =>
    if h : a = b then .isTrue (h ▸ rfl) else .isFalse fun hc => h (Except.error.inj hc)
  | .error _, .ok _ => .isFalse fun hc => Except.noConfusion hc
  | .ok _, .error _ => .isFalse fun hc => Except.noConfusion hc
  | .ok a, .ok b =>
    if h : a = b then .isTrue (h ▸ rfl) else .isFalse fun hc => h (Except.ok.inj hc)

instance (n : Int) : Decidable (i32OK n) := by unfold i32OK; infer_instance

instance (p : Nat) : Decidable (f32OK p) := by unfold f32OK; infer_instance

instance (p : Nat) : Decidable (f64OK p) := by unfold f64OK; infer_instance

instance (n : Nat) (s : List Nat) : Decidable (strOK n s) := by unfold strOK; infer_instance

instance (n : Nat) (l : List Nat) : Decidable (f32seqOK n l) := by
  unfold f32seqOK; infer_instance

instance (n : Nat) (l : List Int) : Decidable (i32seqOK n l) := by
  unfold i32seqOK; infer_instance

instance (c : RfChannelsParameters) : Decidable (rfOK c) := by unfold rfOK; infer_instance

instance (v : SysParameters) : Decidable (WFsys v) := by unfold WFsys; infer_instance

instance (v : AppParameters) : Decidable (WFapp v) := by unfold WFapp; infer_instance

instance (v : ProcessingParameters) : Decidable (WFproc v) := by unfold WFproc; infer_instance

instance (v : RidatResult) : Decidable (WF v) := by unfold WF; infer_instance

theorem ByteReader.bind_apply {α β : Type} (p : ByteReader α) (f : α → ByteReader β)
    (bs : List Nat) :
    (p >>= f) bs = match p bs with
      | .error e => .error e
      | .ok (a, rest) => f a rest := rfl

theorem ByteReader.pure_apply {α : Type} (a : α) (bs : List Nat) :
    (pure a : ByteReader α) bs = .ok (a, bs) := rfl

theorem rfail_apply {α : Type} (e : Err) (bs : List Nat) : (rfail e : ByteReader α) bs = .error e := rfl

theorem bindE_ok {α β : Type} (a : α) (f : α → Except Err β) :
    ((Except.ok a : Except Err α) >>= f) = f a := rfl

theorem bindE_error {α β : Type} (e : Err) (f : α → Except Err β) :
    ((Except.error e : Except Err α) >>= f) = Except.error e := rfl

theorem take_append_len {α : Type} {a : List α} {n : Nat} (b : List α) (h : a.length = n) :
    (a ++ b).take n = a := by
  subst h; exact List.take_left a b

theorem drop_append_len {α : Type} {a : List α} {n : Nat} (b : List α) (h : a.length = n) :
    (a ++ b).drop n = b := by
  subst h; exact List.drop_left a b

theorem bytesOfNat_length (k n : Nat) : (bytesOfNat k n).length = k := by
  simp [bytesOfNat]

theorem leNat_bytesOfNat4 {n : Nat} (h : n < 2 ^ 32) : leNat (bytesOfNat 4 n) = n := by
  have hr : List.range 4 = [0, 1, 2, 3] := rfl
  simp only [bytesOfNat, hr, List.map_cons, List.map_nil, leNat, List.foldr_cons,
    List.foldr_nil]
  norm_num
  omega

theorem leNat_bytesOfNat8 {n : Nat} (h : n < 2 ^ 64) : leNat (bytesOfNat 8 n) = n := by
  have hr : List.range 8 = [0, 1, 2, 3, 4, 5, 6, 7] := rfl
  simp only [bytesOfNat, hr, List.map_cons, List.map_nil, leNat, List.foldr_cons,
    List.foldr_nil]
  norm_num
  omega

theorem readN_enc {n : Nat} {l : List Nat} (r : List Nat) (h : l.length = n) :
    readN n (l ++ r) = .ok (l, r) := by
  simp [readN, take_append_len r h, drop_append_len r h]
  omega

theorem read_int_enc {n : Int} (r : List Nat) (h : i32OK n) :
    read_int_from_file (enc_int32 n ++ r) = .ok (n, r) := by
  obtain ⟨h1, h2⟩ := h
  have hv : (n % 2 ^ 32).toNat < 2 ^ 32 := by omega
  rw [read_int_from_file, ByteReader.bind_apply, enc_int32,
    readN_enc r (bytesOfNat_length 4 _)]
  simp only [ByteReader.pure_apply, leNat_bytesOfNat4 hv]
  have : toInt32 (n % 2 ^ 32).toNat = n := by
    unfold toInt32
    split <;> omega
  rw [this]

theorem read_f32_enc {p : Nat} (r : List Nat) (h : f32OK p) :
    read_float_from_file (enc_f32 p ++ r) = .ok (p, r) := by
  rw [read_float_from_file, ByteReader.bind_apply, enc_f32,
    readN_enc r (bytesOfNat_length 4 _)]
  simp only [ByteReader.pure_apply, leNat_bytesOfNat4 h]

theorem read_f64_enc {p : Nat} (r : List Nat) (h : f64OK p) :
    read_double_from_file (enc_f64 p ++ r) = .ok (p, r) := by
  rw [read_double_from_file, ByteReader.bind_apply, enc_f64,
    readN_enc r (bytesOfNat_length 8 _)]
  simp only [ByteReader.pure_apply, leNat_bytesOfNat8 h]

theorem utf8Run_append {w : List Nat} (hw : utf8Valid w = true) :
    ∀ (u : List Nat) (k lo hi : Nat), utf8Run k lo hi u = true →
      utf8Run k lo hi (u ++ w) = true := by
  intro u
  induction u with
  | nil =>
    intro k lo hi hu
    cases k with
    | zero =>
      rw [List.nil_append]
      cases w with
      | nil => rfl
      | cons b rest => exact hw
    | succ n => simp [utf8Run] at hu
  | cons b rest ih =>
    intro k lo hi hu
    cases k with
    | zero =>
      rw [List.cons_append]
      simp only [utf8Run] at hu ⊢
      split_ifs at hu ⊢ <;> exact ih _ _ _ hu
    | succ n =>
      rw [List.cons_append]
      simp only [utf8Run] at hu ⊢
      split_ifs at hu ⊢
      exact ih _ _ _ hu

theorem utf8Valid_append {u w : List Nat} (hu : utf8Valid u = true) (hw : utf8Valid w = true) :
    utf8Valid (u ++ w) = true :=
  utf8Run_append hw u 0 128 192 hu

theorem utf8Valid_replicate0 (k : Nat) : utf8Valid (List.replicate k 0) = true := by
  induction k with
  | zero => rfl
  | succ n ih =>
    rw [List.replicate_succ]
    show utf8Run 0 128 192 (0 :: List.replicate n 0) = true
    simp only [utf8Run]
    norm_num
    exact ih

theorem dropWhile_replicate_append {p : Nat → Bool} {a : Nat} (hp : p a = true)
    (k : Nat) (t : List Nat) :
    List.dropWhile p (List.replicate k a ++ t) = List.dropWhile p t := by
  induction k with
  | zero => rw [List.replicate_zero, List.nil_append]
  | succ n ih =>
    rw [List.replicate_succ, List.cons_append, List.dropWhile_cons_of_pos hp]
    exact ih

theorem rstripNul_pad {s : List Nat} (h : s.getLast? ≠ some 0) (k : Nat) :
    rstripNul (s ++ List.replicate k 0) = s := by
  rw [rstripNul, List.reverse_append, List.reverse_replicate,
    dropWhile_replicate_append (by rfl)]
  have hdw : List.dropWhile (fun b => b == 0) s.reverse = s.reverse := by
    cases hr : s.reverse with
    | nil => rfl
    | cons b t =>
      have hb : b ≠ 0 := by
        intro hb0
        apply h
        rw [← List.head?_reverse, hr, hb0]
        rfl
      rw [List.dropWhile_cons_of_neg (by simpa using hb)]
  rw [hdw, List.reverse_reverse]

theorem rstripNul_of_last {s : List Nat} (h : s.getLast? ≠ some 0) :
    rstripNul s = s := by
  have := rstripNul_pad h 0
  simpa using this

theorem enc_str_length {n : Nat} {s : List Nat} (h : s.length ≤ n) :
    (enc_str n s).length = n := by
  simp [enc_str]
  omega

theorem read_string_enc {n : Nat} {s : List Nat} (r : List Nat) (h : strOK n s) :
    read_string_from_file n (enc_str n s ++ r) = .ok (s, r) := by
  obtain ⟨h1, h2, h3⟩ := h
  simp only [read_string_from_file, ByteReader.bind_apply, readAvail,
    take_append_len r (enc_str_length h1), drop_append_len r (enc_str_length h1)]
  rw [enc_str, if_pos (utf8Valid_append h2 (utf8Valid_replicate0 (n - s.length))),
    ByteReader.pure_apply, rstripNul_pad h3]

theorem read_f32seq_enc {l : List Nat} (r : List Nat) (h : ∀ x ∈ l, f32OK x) :
    read_data_sequence_from_file read_float_from_file l.length (enc_f32seq l ++ r) =
      .ok (l, r) := by
  induction l generalizing r with
  | nil =>
    rw [enc_f32seq]
    simp [read_data_sequence_from_file, ByteReader.pure_apply]
  | cons x xs ih =>
    have hx : f32OK x := h x (by simp)
    have hxs : ∀ y ∈ xs, f32OK y := fun y hy => h y (by simp [hy])
    rw [List.length_cons,
      show enc_f32seq (x :: xs) ++ r = enc_f32 x ++ (enc_f32seq xs ++ r) by
        simp [enc_f32seq]]
    simp only [read_data_sequence_from_file, ByteReader.bind_apply,
      read_f32_enc _ hx, ih r hxs, ByteReader.pure_apply]

theorem read_i32seq_enc {l : List Int} (r : List Nat) (h : ∀ x ∈ l, i32OK x) :
    read_data_sequence_from_file read_int_from_file l.length (enc_i32seq l ++ r) =
      .ok (l, r) := by
  induction l generalizing r with
  | nil =>
    rw [enc_i32seq]
    simp [read_data_sequence_from_file, ByteReader.pure_apply]
  | cons x xs ih =>
    have hx : i32OK x := h x (by simp)
    have hxs : ∀ y ∈ xs, i32OK y := fun y hy => h y (by simp [hy])
    rw [List.length_cons,
      show enc_i32seq (x :: xs) ++ r = enc_int32 x ++ (enc_i32seq xs ++ r) by
        simp [enc_i32seq]]
    simp only [read_data_sequence_from_file, ByteReader.bind_apply,
      read_int_enc _ hx, ih r hxs, ByteReader.pure_apply]

theorem read_f32seq_enc_n {n : Nat} {l : List Nat} (r : List Nat) (hn : l.length = n)
    (h : ∀ x ∈ l, f32OK x) :
    read_data_sequence_from_file read_float_from_file n (enc_f32seq l ++ r) = .ok (l, r) :=
  hn ▸ read_f32seq_enc r h

theorem read_i32seq_enc_n {n : Nat} {l : List Int} (r : List Nat) (hn : l.length = n)
    (h : ∀ x ∈ l, i32OK x) :
    read_data_sequence_from_file read_int_from_file n (enc_i32seq l ++ r) = .ok (l, r) :=
  hn ▸ read_i32seq_enc r h

theorem list3_getD {α : Type} {l : List α} (d : α) (h : l.length = 3) :
    [l.getD 0 d, l.getD 1 d, l.getD 2 d] = l := by
  match l, h with
  | [a, b, c], _ => rfl

theorem list4_getD {α : Type} {l : List α} (d : α) (h : l.length = 4) :
    [l.getD 0 d, l.getD 1 d, l.getD 2 d, l.getD 3 d] = l := by
  match l, h with
  | [a, b, c, e], _ => rfl

theorem setSlice_eq {α : Type} {s : Nat} (pre mid rest v : List α) (hs : pre.length = s)
    (hlen : mid.length = v.length) :
    setSlice (pre ++ (mid ++ rest)) s v = pre ++ (v ++ rest) := by
  subst hs
  have h1 : (pre ++ (mid ++ rest)).take pre.length = pre := List.take_left pre _
  have h2 : (pre ++ (mid ++ rest)).drop (pre.length + v.length) = rest := by
    rw [← hlen, ← List.append_assoc,
      show pre.length + mid.length = (pre ++ mid).length by simp, List.drop_left]
  rw [setSlice, h1, h2, List.append_assoc]

theorem setSlice3_tile {α : Type} (z : α) {l : List α} (h : l.length = 32) :
    setSlice (setSlice (setSlice (List.replicate 32 z) 0 (l.take 5)) 5
      ((l.drop 5).take 7)) 12 (l.drop 12) = l := by
  rw [show List.replicate 32 z = ([] : List α) ++ (List.replicate 5 z ++ List.replicate 27 z) by
    rw [List.nil_append, ← List.replicate_add]]
  rw [setSlice_eq [] _ _ _ (show ([] : List α).length = 0 from rfl) (by simp [h]), List.nil_append]
  rw [show List.replicate 27 z = List.replicate 7 z ++ List.replicate 20 z by
    rw [← List.replicate_add]]
  rw [setSlice_eq (l.take 5) _ _ _ (by simp [h]) (by simp [h])]
  rw [show l.take 5 ++ ((l.drop 5).take 7 ++ List.replicate 20 z) =
    (l.take 5 ++ (l.drop 5).take 7) ++ (List.replicate 20 z ++ []) by simp]
  rw [setSlice_eq _ _ _ _ (by simp [h]) (by simp [h])]
  rw [List.append_nil, ← List.take_add, List.take_append_drop]

theorem setSlice2_tile {α : Type} (z : α) {l : List α} (h : l.length = 32) :
    setSlice (setSlice (List.replicate 32 z) 0 (l.take 9)) 9 (l.drop 9) = l := by
  rw [show List.replicate 32 z = ([] : List α) ++ (List.replicate 9 z ++ List.replicate 23 z) by
    rw [List.nil_append, ← List.replicate_add]]
  rw [setSlice_eq [] _ _ _ (show ([] : List α).length = 0 from rfl) (by simp [h]), List.nil_append]
  rw [show l.take 9 ++ List.replicate 23 z = l.take 9 ++ (List.replicate 23 z ++ []) by simp]
  rw [setSlice_eq _ _ _ _ (by simp [h]) (by simp [h])]
  rw [List.append_nil, List.take_append_drop]

theorem bstep {α β : Type} {p : ByteReader α} {f : α → ByteReader β} {bs : List Nat}
    {a : α} {rest : List Nat} (h : p bs = .ok (a, rest)) :
    (p >>= f) bs = f a rest := by
  rw [ByteReader.bind_apply, h]

theorem checkMagic_ok (bs : List Nat) : checkMagic 190955 bs = .ok ((), bs) := rfl

theorem checkVersion_ok (bs : List Nat) : checkVersion 0 bs = .ok ((), bs) := rfl

theorem i32OK_0 : i32OK 0 := ⟨by norm_num, by norm_num⟩

theorem headerFields_enc {c : List Nat} (r : List Nat) (hc : strOK 128 c) :
    headerFields (headerFieldsBytes c ++ r) =
      .ok ({ Sect1Size := 156, Sect2Size := 592, Sect3Size := 1512, Sect4Size := 108,
             Comment := c }, r) := by
  have hm : i32OK 190955 := ⟨by norm_num, by norm_num⟩
  have h156 : i32OK 156 := ⟨by norm_num, by norm_num⟩
  have h592 : i32OK 592 := ⟨by norm_num, by norm_num⟩
  have h1512 : i32OK 1512 := ⟨by norm_num, by norm_num⟩
  have h108 : i32OK 108 := ⟨by norm_num, by norm_num⟩
  simp only [headerFieldsBytes, List.append_assoc]
  rw [headerFields.eq_def]
  refine Eq.trans (bstep (read_int_enc _ hm)) ?_
  refine Eq.trans (bstep (checkMagic_ok _)) ?_
  refine Eq.trans (bstep (read_int_enc _ i32OK_0)) ?_
  refine Eq.trans (bstep (checkVersion_ok _)) ?_
  refine Eq.trans (bstep (read_int_enc _ h156)) ?_
  refine Eq.trans (bstep (read_int_enc _ h592)) ?_
  refine Eq.trans (bstep (read_int_enc _ h1512)) ?_
  refine Eq.trans (bstep (read_int_enc _ h108)) ?_
  refine Eq.trans (bstep (read_string_enc _ hc)) ?_
  exact ByteReader.pure_apply _ _

theorem headerP_enc {c : List Nat} (r : List Nat) (hc : strOK 128 c) :
    headerP (headerBytes c ++ r) =
      .ok ({ Sect1Size := 156, Sect2Size := 592, Sect3Size := 1512, Sect4Size := 108,
             Comment := c }, r) := by
  simp only [headerBytes, List.append_assoc]
  rw [headerP.eq_def]
  refine Eq.trans (bstep (headerFields_enc _ hc)) ?_
  refine Eq.trans (bstep (read_int_enc _ i32OK_0)) ?_
  exact ByteReader.pure_apply _ _

theorem getD_of_all {α : Type} {P : α → Prop} {l : List α} (h : ∀ x ∈ l, P x) {d : α}
    (hd : P d) (i : Nat) : P (l.getD i d) := by
  rw [List.getD_eq_getElem?_getD]
  rcases hx : l[i]? with _ | x
  · exact hd
  · exact h x (List.get?_mem ((l.get?_eq_getElem? i).trans hx))

theorem f32OK_0 : f32OK 0 := by norm_num [f32OK]

theorem rfOK_default : rfOK rfDefault := by
  norm_num [rfOK, rfDefault, i32OK, f64OK]

theorem read_rf_trims_enc {ch : RfChannelsParameters} (sf off : Nat) (r : List Nat)
    (hc : rfOK ch) :
    read_rf_trims sf off (rfTrimBytes ch ++ r) =
      .ok ({ SF := sf, Offset := off, MultReg := ch.MultReg,
             PhaseTwiddle := ch.PhaseTwiddle, ChanAOffset := ch.ChanAOffset,
             ChanBOffset := ch.ChanBOffset, ExtAPhaseTrim := ch.ExtAPhaseTrim,
             ExtAAmpTrim := ch.ExtAAmpTrim, ExtBPhaseTrim := ch.ExtBPhaseTrim,
             ExtBAmpTrim := ch.ExtBAmpTrim, IntAAmpTrim := ch.IntAAmpTrim,
             IntBAmpTrim := ch.IntBAmpTrim, PhaseTrim0 := ch.PhaseTrim0,
             AmpTrim0 := ch.AmpTrim0, PhaseTrim90 := ch.PhaseTrim90,
             AmpTrim90 := ch.AmpTrim90, PhaseTrim180 := ch.PhaseTrim180,
             AmpTrim180 := ch.AmpTrim180, PhaseTrim270 := ch.PhaseTrim270,
             AmpTrim270 := ch.AmpTrim270, quadtrim := 0 }, r) := by
  obtain ⟨_, _, h3, h4, h5, h6, h7, h8, h9, h10, h11, h12, h13, h14, h15, h16, h17,
    h18, h19, h20, _⟩ := hc
  simp only [rfTrimBytes, List.append_assoc]
  rw [read_rf_trims.eq_def]
  refine Eq.trans (bstep (read_int_enc _ h3)) ?_
  refine Eq.trans (bstep (read_int_enc _ h4)) ?_
  refine Eq.trans (bstep (read_int_enc _ h5)) ?_
  refine Eq.trans (bstep (read_int_enc _ h6)) ?_
  refine Eq.trans (bstep (read_int_enc _ h7)) ?_
  refine Eq.trans (bstep (read_int_enc _ h8)) ?_
  refine Eq.trans (bstep (read_int_enc _ h9)) ?_
  refine Eq.trans (bstep (read_int_enc _ h10)) ?_
  refine Eq.trans (bstep (read_int_enc _ h11)) ?_
  refine Eq.trans (bstep (read_int_enc _ h12)) ?_
  refine Eq.trans (bstep (read_int_enc _ h13)) ?_
  refine Eq.trans (bstep (read_int_enc _ h14)) ?_
  refine Eq.trans (bstep (read_int_enc _ h15)) ?_
  refine Eq.trans (bstep (read_int_enc _ h16)) ?_
  refine Eq.trans (bstep (read_int_enc _ h17)) ?_
  refine Eq.trans (bstep (read_int_enc _ h18)) ?_
  refine Eq.trans (bstep (read_int_enc _ h19)) ?_
  refine Eq.trans (bstep (read_int_enc _ h20)) ?_
  exact ByteReader.pure_apply _ _

theorem sysParameters_fields_ext {a b : SysParameters}
    (h1 : a.Dead1 = b.Dead1) (h2 : a.Dead2 = b.Dead2) (h3 : a.P90 = b.P90)
    (h4 : a.P180 = b.P180) (h5 : a.rf_channels = b.rf_channels)
    (h6 : a.GSH1 = b.GSH1) (h7 : a.GSH2 = b.GSH2) (h8 : a.GSH3 = b.GSH3)
    (h9 : a.GSH4 = b.GSH4) (h10 : a.GSH5 = b.GSH5) (h11 : a.EndTime = b.EndTime)
    (h12 : a.PreXK = b.PreXK) (h13 : a.PreXA = b.PreXA) (h14 : a.PreYK = b.PreYK)
    (h15 : a.PreYA = b.PreYA) (h16 : a.PreZK = b.PreZK) (h17 : a.PreZA = b.PreZA)
    (h18 : a.XB0K = b.XB0K) (h19 : a.XB0A = b.XB0A) (h20 : a.YB0K = b.YB0K)
    (h21 : a.YB0A = b.YB0A) (h22 : a.ZB0K = b.ZB0K) (h23 : a.ZB0A = b.ZB0A)
    (h24 : a.DummyParam1 = b.DummyParam1) (h25 : a.DummyParam2 = b.DummyParam2)
    (h26 : a.DummyPar1 = b.DummyPar1) (h27 : a.DummyPar2 = b.DummyPar2)
    (h28 : a.Dec90 = b.Dec90) (h29 : a.CPD = b.CPD) (h30 : a.Trigger = b.Trigger)
    (h31 : a.XB0 = b.XB0) (h32 : a.YB0 = b.YB0) (h33 : a.ZB0 = b.ZB0)
    (h34 : a.XOffset = b.XOffset) (h35 : a.YOffset = b.YOffset)
    (h36 : a.ZOffset = b.ZOffset) (h37 : a.Acquisition = b.Acquisition) :
    a = b := by
  cases a
  cases b
  simp only [SysParameters.mk.injEq]
  exact ⟨h1, h2, h3, h4, h5, h6, h7, h8, h9, h10, h11, h12, h13, h14, h15, h16,
    h17, h18, h19, h20, h21, h22, h23, h24, h25, h26, h27, h28, h29, h30, h31,
    h32, h33, h34, h35, h36, h37⟩

theorem appParameters_fields_ext {a b : AppParameters}
    (h1 : a.SI = b.SI) (h2 : a.DW = b.DW) (h3 : a.Pulses = b.Pulses)
    (h4 : a.RD = b.RD) (h5 : a.tau = b.tau) (h6 : a.Delays = b.Delays)
    (h7 : a.NS = b.NS) (h8 : a.FW = b.FW) (h9 : a.PH1 = b.PH1)
    (h10 : a.PH2 = b.PH2) (h11 : a.PH3 = b.PH3) (h12 : a.PH4 = b.PH4)
    (h13 : a.PH5 = b.PH5) (h14 : a.RG = b.RG) (h15 : a.NECH = b.NECH)
    (h16 : a.SW = b.SW) (h17 : a.DB = b.DB) (h18 : a.Bessel = b.Bessel)
    (h19 : a.Butterworth = b.Butterworth) (h20 : a.SequenceName = b.SequenceName)
    (h21 : a.RfAmps_ch0 = b.RfAmps_ch0) (h22 : a.RfAmps_ch1 = b.RfAmps_ch1)
    (h23 : a.WW = b.WW) (h24 : a.Counters = b.Counters) (h25 : a.GRead = b.GRead)
    (h26 : a.GPhase = b.GPhase) (h27 : a.GSlice = b.GSlice)
    (h28 : a.Gradients = b.Gradients) (h29 : a.MAC1 = b.MAC1)
    (h30 : a.MAC2 = b.MAC2) (h31 : a.SH1 = b.SH1) (h32 : a.SH2 = b.SH2)
    (h33 : a.SH3 = b.SH3) (h34 : a.SH4 = b.SH4) (h35 : a.SH5 = b.SH5)
    (h36 : a.DS = b.DS) (h37 : a.NA = b.NA)
    (h38 : a.GradientsIncrements = b.GradientsIncrements)
    (h39 : a.DimX = b.DimX) (h40 : a.DimY = b.DimY) (h41 : a.DimZ = b.DimZ)
    (h42 : a.DimC = b.DimC) (h43 : a.ImageEchos = b.ImageEchos)
    (h44 : a.ImageSlices = b.ImageSlices) (h45 : a.GradPhase = b.GradPhase)
    (h46 : a.GradSlice = b.GradSlice) (h47 : a.GradRead = b.GradRead)
    (h48 : a.TimePoints = b.TimePoints) (h49 : a.SNR = b.SNR)
    (h50 : a.FPs = b.FPs) (h51 : a.GREADX = b.GREADX) (h52 : a.GREADY = b.GREADY)
    (h53 : a.GREADZ = b.GREADZ) (h54 : a.GPHASEX = b.GPHASEX)
    (h55 : a.GPHASEY = b.GPHASEY) (h56 : a.GPHASEZ = b.GPHASEZ)
    (h57 : a.GSLICEX = b.GSLICEX) (h58 : a.GSLICEY = b.GSLICEY)
    (h59 : a.GSLICEZ = b.GSLICEZ) (h60 : a.MoreGains = b.MoreGains) :
    a = b := by
  cases a
  cases b
  simp only [AppParameters.mk.injEq]
  exact ⟨h1, h2, h3, h4, h5, h6, h7, h8, h9, h10, h11, h12, h13, h14, h15, h16,
    h17, h18, h19, h20, h21, h22, h23, h24, h25, h26, h27, h28, h29, h30, h31,
    h32, h33, h34, h35, h36, h37, h38, h39, h40, h41, h42, h43, h44, h45, h46,
    h47, h48, h49, h50, h51, h52, h53, h54, h55, h56, h57, h58, h59, h60⟩

theorem sysFields_enc {v : SysParameters} (r : List Nat) (hw : WFsys v) :
    sysFields (sysFieldsBytes v ++ r) = .ok (v, r) := by
  obtain ⟨hD1, hD2, hP90, hP180, hlen3, hchAll, hG1, hG2, hG3, hG4, hG5, hET,
    hXK, hXA, hYK, hYA, hZK, hZA, hXB0K, hXB0A, hYB0K, hYB0A, hZB0K, hZB0A,
    hDp1, hDp2, hDP1, hDP2, hDec, hCPD, hTrig, hXB0, hYB0, hZB0,
    hXOff, hYOff, hZOff, hAcq⟩ := hw
  have hch0 : rfOK (sysCh v 0) := getD_of_all hchAll rfOK_default 0
  have hch1 : rfOK (sysCh v 1) := getD_of_all hchAll rfOK_default 1
  have hch2 : rfOK (sysCh v 2) := getD_of_all hchAll rfOK_default 2
  have hq0 : i32OK (sysCh v 0).quadtrim := by
    have h := hch0
    obtain ⟨_, _, _, _, _, _, _, _, _, _, _, _, _, _, _, _, _, _, _, _, hq⟩ := h
    exact hq
  have hq1 : i32OK (sysCh v 1).quadtrim := by
    have h := hch1
    obtain ⟨_, _, _, _, _, _, _, _, _, _, _, _, _, _, _, _, _, _, _, _, hq⟩ := h
    exact hq
  have hq2 : i32OK (sysCh v 2).quadtrim := by
    have h := hch2
    obtain ⟨_, _, _, _, _, _, _, _, _, _, _, _, _, _, _, _, _, _, _, _, hq⟩ := h
    exact hq
  simp only [sysFieldsBytes, List.append_assoc]
  rw [sysFields.eq_def]
  refine Eq.trans (bstep (read_f32_enc _ hD1)) ?_
  refine Eq.trans (bstep (read_f32_enc _ hD2)) ?_
  refine Eq.trans (bstep (read_f32_enc _ hP90)) ?_
  refine Eq.trans (bstep (read_f32_enc _ hP180)) ?_
  refine Eq.trans (bstep (read_f64_enc _ hch0.1)) ?_
  refine Eq.trans (bstep (read_f64_enc _ hch0.2.1)) ?_
  refine Eq.trans (bstep (read_int_enc _ i32OK_0)) ?_
  refine Eq.trans (bstep (read_rf_trims_enc _ _ _ hch0)) ?_
  refine Eq.trans (bstep (read_f64_enc _ hch1.1)) ?_
  refine Eq.trans (bstep (read_f64_enc _ hch1.2.1)) ?_
  refine Eq.trans (bstep (read_rf_trims_enc _ _ _ hch1)) ?_
  refine Eq.trans (bstep (read_f64_enc _ hch2.1)) ?_
  refine Eq.trans (bstep (read_f64_enc _ hch2.2.1)) ?_
  refine Eq.trans (bstep (read_rf_trims_enc _ _ _ hch2)) ?_
  refine Eq.trans (bstep (read_int_enc _ hq0)) ?_
  refine Eq.trans (bstep (read_int_enc _ hq1)) ?_
  refine Eq.trans (bstep (read_int_enc _ hq2)) ?_
  refine Eq.trans (bstep (read_string_enc _ hG1)) ?_
  refine Eq.trans (bstep (read_string_enc _ hG2)) ?_
  refine Eq.trans (bstep (read_string_enc _ hG3)) ?_
  refine Eq.trans (bstep (read_string_enc _ hG4)) ?_
  refine Eq.trans (bstep (read_string_enc _ hG5)) ?_
  refine Eq.trans (bstep (read_f64_enc _ hET)) ?_
  refine Eq.trans (bstep (read_f32_enc _ (getD_of_all hXK.2 f32OK_0 0))) ?_
  refine Eq.trans (bstep (read_f32_enc _ (getD_of_all hXA.2 f32OK_0 0))) ?_
  refine Eq.trans (bstep (read_f32_enc _ (getD_of_all hXK.2 f32OK_0 1))) ?_
  refine Eq.trans (bstep (read_f32_enc _ (getD_of_all hXA.2 f32OK_0 1))) ?_
  refine Eq.trans (bstep (read_f32_enc _ (getD_of_all hXK.2 f32OK_0 2))) ?_
  refine Eq.trans (bstep (read_f32_enc _ (getD_of_all hXA.2 f32OK_0 2))) ?_
  refine Eq.trans (bstep (read_f32_enc _ (getD_of_all hXK.2 f32OK_0 3))) ?_
  refine Eq.trans (bstep (read_f32_enc _ (getD_of_all hXA.2 f32OK_0 3))) ?_
  refine Eq.trans (bstep (read_f32_enc _ (getD_of_all hYK.2 f32OK_0 0))) ?_
  refine Eq.trans (bstep (read_f32_enc _ (getD_of_all hYA.2 f32OK_0 0))) ?_
  refine Eq.trans (bstep (read_f32_enc _ (getD_of_all hYK.2 f32OK_0 1))) ?_
  refine Eq.trans (bstep (read_f32_enc _ (getD_of_all hYA.2 f32OK_0 1))) ?_
  refine Eq.trans (bstep (read_f32_enc _ (getD_of_all hYK.2 f32OK_0 2))) ?_
  refine Eq.trans (bstep (read_f32_enc _ (getD_of_all hYA.2 f32OK_0 2))) ?_
  refine Eq.trans (bstep (read_f32_enc _ (getD_of_all hYK.2 f32OK_0 3))) ?_
  refine Eq.trans (bstep (read_f32_enc _ (getD_of_all hYA.2 f32OK_0 3))) ?_
  refine Eq.trans (bstep (read_f32_enc _ (getD_of_all hZK.2 f32OK_0 0))) ?_
  refine Eq.trans (bstep (read_f32_enc _ (getD_of_all hZA.2 f32OK_0 0))) ?_
  refine Eq.trans (bstep (read_f32_enc _ (getD_of_all hZK.2 f32OK_0 1))) ?_
  refine Eq.trans (bstep (read_f32_enc _ (getD_of_all hZA.2 f32OK_0 1))) ?_
  refine Eq.trans (bstep (read_f32_enc _ (getD_of_all hZK.2 f32OK_0 2))) ?_
  refine Eq.trans (bstep (read_f32_enc _ (getD_of_all hZA.2 f32OK_0 2))) ?_
  refine Eq.trans (bstep (read_f32_enc _ (getD_of_all hZK.2 f32OK_0 3))) ?_
  refine Eq.trans (bstep (read_f32_enc _ (getD_of_all hZA.2 f32OK_0 3))) ?_
  refine Eq.trans (bstep (read_f32_enc _ hXB0K)) ?_
  refine Eq.trans (bstep (read_f32_enc _ hXB0A)) ?_
  refine Eq.trans (bstep (read_f32_enc _ hYB0K)) ?_
  refine Eq.trans (bstep (read_f32_enc _ hYB0A)) ?_
  refine Eq.trans (bstep (read_f32_enc _ hZB0K)) ?_
  refine Eq.trans (bstep (read_f32_enc _ hZB0A)) ?_
  refine Eq.trans (bstep (read_f32_enc _ hDP1)) ?_
  refine Eq.trans (bstep (read_f32_enc _ hDP2)) ?_
  refine Eq.trans (bstep (read_f32_enc _ hDec)) ?_
  refine Eq.trans (bstep (read_string_enc _ hCPD)) ?_
  refine Eq.trans (bstep (read_int_enc _ hTrig)) ?_
  refine Eq.trans (bstep (read_f32_enc _ hXB0)) ?_
  refine Eq.trans (bstep (read_f32_enc _ hYB0)) ?_
  refine Eq.trans (bstep (read_f32_enc _ hZB0)) ?_
  refine Eq.trans (bstep (read_f32_enc _ hXOff)) ?_
  refine Eq.trans (bstep (read_f32_enc _ hYOff)) ?_
  refine Eq.trans (bstep (read_f32_enc _ hZOff)) ?_
  refine Eq.trans (bstep (read_int_enc _ hAcq)) ?_
  refine Eq.trans (ByteReader.pure_apply _ _) ?_
  refine congrArg (fun sp => Except.ok (sp, r)) ?_
  exact sysParameters_fields_ext rfl rfl rfl rfl (list3_getD rfDefault hlen3)
    rfl rfl rfl rfl rfl rfl
    (list4_getD 0 hXK.1) (list4_getD 0 hXA.1) (list4_getD 0 hYK.1)
    (list4_getD 0 hYA.1) (list4_getD 0 hZK.1) (list4_getD 0 hZA.1)
    rfl rfl rfl rfl rfl rfl
    hDp1.symm hDp2.symm rfl rfl
    rfl rfl rfl rfl rfl rfl rfl rfl rfl rfl

theorem sysSection_enc {v : SysParameters} (r : List Nat) (hw : WFsys v) :
    sysSection (sysBytes v ++ r) = .ok (v, r) := by
  simp only [sysBytes, List.append_assoc]
  rw [sysSection.eq_def]
  refine Eq.trans (bstep (sysFields_enc _ hw)) ?_
  refine Eq.trans (bstep (read_int_enc _ i32OK_0)) ?_
  exact ByteReader.pure_apply _ _

theorem appFields_enc {v : AppParameters} (r : List Nat) (hw : WFapp v) :
    appFields (appFieldsBytes v ++ r) = .ok (v, r) := by
  obtain ⟨hSI, hDW, hPul, hRD, htau, hDel, hNS, hFW, hPH1, hPH2, hPH3, hPH4, hPH5,
    hRG, hNECH, hSW, hDB, hBes, hBut, hSeqN, hRf0, hRf1, hWW, hCnt, hGRead, hGPhase,
    hGSlice, hGrad, hMAC1, hMAC2, hSH1, hSH2, hSH3, hSH4, hSH5, hDS, hNA, hGInc,
    hDimX, hDimY, hDimZ, hDimC, hIE, hIS, hGradP, hGradS, hGradR, hTP, hSNR, hFPs,
    hRX, hRY, hRZ, hPX, hPY, hPZ, hSX, hSY, hSZ, hMore⟩ := hw
  have hd5l : (v.Delays.take 5).length = 5 := by simp [List.length_take, hDel.1]
  have hd5b : ∀ x ∈ v.Delays.take 5, f32OK x :=
    fun x hx => hDel.2 x (List.mem_of_mem_take hx)
  have hd7l : ((v.Delays.drop 5).take 7).length = 7 := by
    simp [List.length_take, List.length_drop, hDel.1]
  have hd7b : ∀ x ∈ (v.Delays.drop 5).take 7, f32OK x :=
    fun x hx => hDel.2 x (List.mem_of_mem_drop (List.mem_of_mem_take hx))
  have hd20l : (v.Delays.drop 12).length = 20 := by simp [List.length_drop, hDel.1]
  have hd20b : ∀ x ∈ v.Delays.drop 12, f32OK x :=
    fun x hx => hDel.2 x (List.mem_of_mem_drop hx)
  have hc5l : (v.Counters.take 5).length = 5 := by simp [List.length_take, hCnt.1]
  have hc5b : ∀ x ∈ v.Counters.take 5, i32OK x :=
    fun x hx => hCnt.2 x (List.mem_of_mem_take hx)
  have hc7l : ((v.Counters.drop 5).take 7).length = 7 := by
    simp [List.length_take, List.length_drop, hCnt.1]
  have hc7b : ∀ x ∈ (v.Counters.drop 5).take 7, i32OK x :=
    fun x hx => hCnt.2 x (List.mem_of_mem_drop (List.mem_of_mem_take hx))
  have hc20l : (v.Counters.drop 12).length = 20 := by simp [List.length_drop, hCnt.1]
  have hc20b : ∀ x ∈ v.Counters.drop 12, i32OK x :=
    fun x hx => hCnt.2 x (List.mem_of_mem_drop hx)
  have hg9l : (v.Gradients.take 9).length = 9 := by simp [List.length_take, hGrad.1]
  have hg9b : ∀ x ∈ v.Gradients.take 9, i32OK x :=
    fun x hx => hGrad.2 x (List.mem_of_mem_take hx)
  have hg23l : (v.Gradients.drop 9).length = 23 := by simp [List.length_drop, hGrad.1]
  have hg23b : ∀ x ∈ v.Gradients.drop 9, i32OK x :=
    fun x hx => hGrad.2 x (List.mem_of_mem_drop hx)
  simp only [appFieldsBytes, List.append_assoc]
  rw [appFields.eq_def]
  refine Eq.trans (bstep (read_int_enc _ hSI)) ?_
  refine Eq.trans (bstep (read_f32_enc _ hDW)) ?_
  refine Eq.trans (bstep (read_f32seq_enc_n _ hPul.1 hPul.2)) ?_
  refine Eq.trans (bstep (read_f32_enc _ hRD)) ?_
  refine Eq.trans (bstep (read_f32_enc _ htau)) ?_
  refine Eq.trans (bstep (read_f32seq_enc_n _ hd5l hd5b)) ?_
  refine Eq.trans (bstep (read_int_enc _ hNS)) ?_
  refine Eq.trans (bstep (read_f32_enc _ hFW)) ?_
  refine Eq.trans (bstep (read_string_enc _ hPH1)) ?_
  refine Eq.trans (bstep (read_string_enc _ hPH2)) ?_
  refine Eq.trans (bstep (read_string_enc _ hPH3)) ?_
  refine Eq.trans (bstep (read_string_enc _ hPH4)) ?_
  refine Eq.trans (bstep (read_string_enc _ hPH5)) ?_
  refine Eq.trans (bstep (read_f32_enc _ hRG)) ?_
  refine Eq.trans (bstep (read_int_enc _ hNECH)) ?_
  refine Eq.trans (bstep (read_f64_enc _ hSW)) ?_
  refine Eq.trans (bstep (read_int_enc _ hDB)) ?_
  refine Eq.trans (bstep (read_f64_enc _ hBes)) ?_
  refine Eq.trans (bstep (read_f64_enc _ hBut)) ?_
  refine Eq.trans (bstep (read_string_enc _ hSeqN)) ?_
  refine Eq.trans (bstep (read_f32seq_enc_n _ hRf0.1 hRf0.2)) ?_
  refine Eq.trans (bstep (read_f32seq_enc_n _ hRf1.1 hRf1.2)) ?_
  refine Eq.trans (bstep (read_f32_enc _ hWW)) ?_
  refine Eq.trans (bstep (read_i32seq_enc_n _ hc5l hc5b)) ?_
  refine Eq.trans (bstep (read_int_enc _ hGRead)) ?_
  refine Eq.trans (bstep (read_int_enc _ hGPhase)) ?_
  refine Eq.trans (bstep (read_int_enc _ hGSlice)) ?_
  refine Eq.trans (bstep (read_i32seq_enc_n _ hg9l hg9b)) ?_
  refine Eq.trans (bstep (read_f32_enc _ hMAC1)) ?_
  refine Eq.trans (bstep (read_f32_enc _ hMAC2)) ?_
  refine Eq.trans (bstep (read_string_enc _ hSH1)) ?_
  refine Eq.trans (bstep (read_string_enc _ hSH2)) ?_
  refine Eq.trans (bstep (read_string_enc _ hSH3)) ?_
  refine Eq.trans (bstep (read_string_enc _ hSH4)) ?_
  refine Eq.trans (bstep (read_string_enc _ hSH5)) ?_
  refine Eq.trans (bstep (read_int_enc _ hDS)) ?_
  refine Eq.trans (bstep (read_int_enc _ hNA)) ?_
  refine Eq.trans (bstep (read_i32seq_enc_n _ hGInc.1 hGInc.2)) ?_
  refine Eq.trans (bstep (read_int_enc _ hDimX)) ?_
  refine Eq.trans (bstep (read_int_enc _ hDimY)) ?_
  refine Eq.trans (bstep (read_int_enc _ hDimZ)) ?_
  refine Eq.trans (bstep (read_int_enc _ hDimC)) ?_
  refine Eq.trans (bstep (read_int_enc _ hIE)) ?_
  refine Eq.trans (bstep (read_int_enc _ hIS)) ?_
  refine Eq.trans (bstep (read_f32seq_enc_n _ hd7l hd7b)) ?_
  refine Eq.trans (bstep (read_string_enc _ hGradP)) ?_
  refine Eq.trans (bstep (read_string_enc _ hGradS)) ?_
  refine Eq.trans (bstep (read_string_enc _ hGradR)) ?_
  refine Eq.trans (bstep (read_int_enc _ hTP)) ?_
  refine Eq.trans (bstep (read_int_enc _ hSNR)) ?_
  refine Eq.trans (bstep (read_i32seq_enc_n _ hc7l hc7b)) ?_
  refine Eq.trans (bstep (read_f32seq_enc_n _ hFPs.1 hFPs.2)) ?_
  refine Eq.trans (bstep (read_f32_enc _ hRX)) ?_
  refine Eq.trans (bstep (read_f32_enc _ hRY)) ?_
  refine Eq.trans (bstep (read_f32_enc _ hRZ)) ?_
  refine Eq.trans (bstep (read_f32_enc _ hPX)) ?_
  refine Eq.trans (bstep (read_f32_enc _ hPY)) ?_
  refine Eq.trans (bstep (read_f32_enc _ hPZ)) ?_
  refine Eq.trans (bstep (read_f32_enc _ hSX)) ?_
  refine Eq.trans (bstep (read_f32_enc _ hSY)) ?_
  refine Eq.trans (bstep (read_f32_enc _ hSZ)) ?_
  refine Eq.trans (bstep (read_f32seq_enc_n _ hd20l hd20b)) ?_
  refine Eq.trans (bstep (read_i32seq_enc_n _ hc20l hc20b)) ?_
  refine Eq.trans (bstep (read_i32seq_enc_n _ hg23l hg23b)) ?_
  refine Eq.trans (bstep (read_f32seq_enc_n _ hMore.1 hMore.2)) ?_
  refine Eq.trans (ByteReader.pure_apply _ _) ?_
  refine congrArg (fun ap => Except.ok (ap, r)) ?_
  exact appParameters_fields_ext rfl rfl rfl rfl rfl (setSlice3_tile 0 hDel.1) rfl rfl
    rfl rfl rfl rfl rfl rfl rfl rfl rfl rfl rfl rfl rfl rfl rfl
    (setSlice3_tile 0 hCnt.1) rfl rfl rfl (setSlice2_tile 0 hGrad.1) rfl rfl
    rfl rfl rfl rfl rfl rfl rfl rfl rfl rfl rfl rfl rfl rfl rfl rfl rfl rfl rfl
    rfl rfl rfl rfl rfl rfl rfl rfl rfl rfl rfl

theorem appSection_enc {v : AppParameters} (r : List Nat) (hw : WFapp v) :
    appSection (appBytes v ++ r) = .ok (v, r) := by
  simp only [appBytes, List.append_assoc]
  rw [appSection.eq_def]
  refine Eq.trans (bstep (appFields_enc _ hw)) ?_
  refine Eq.trans (bstep (read_int_enc _ i32OK_0)) ?_
  exact ByteReader.pure_apply _ _

theorem procFields_enc {v : ProcessingParameters} (r : List Nat) (hw : WFproc v) :
    procFields (procFieldsBytes v ++ r) = .ok (v, r) := by
  obtain ⟨hPF, hPD, hLB, hPA, hPB, hDP, hSMP, hPP, hNOBC, hPPRF, hPPTH, hPPBL,
    hPPAF, hINC, hSD⟩ := hw
  simp only [procFieldsBytes, List.append_assoc]
  rw [procFields.eq_def]
  refine Eq.trans (bstep (read_int_enc _ hPF)) ?_
  refine Eq.trans (bstep (read_i32seq_enc_n _ hPD.1 hPD.2)) ?_
  refine Eq.trans (bstep (read_f32_enc _ hLB)) ?_
  refine Eq.trans (bstep (read_f32_enc _ hPA)) ?_
  refine Eq.trans (bstep (read_f32_enc _ hPB)) ?_
  refine Eq.trans (bstep (read_f32_enc _ hDP)) ?_
  refine Eq.trans (bstep (read_int_enc _ hSMP)) ?_
  refine Eq.trans (bstep (read_int_enc _ hPP)) ?_
  refine Eq.trans (bstep (read_int_enc _ hNOBC)) ?_
  refine Eq.trans (bstep (read_int_enc _ hPPRF)) ?_
  refine Eq.trans (bstep (read_f64_enc _ hPPTH)) ?_
  refine Eq.trans (bstep (read_f64_enc _ hPPBL)) ?_
  refine Eq.trans (bstep (read_int_enc _ hPPAF)) ?_
  refine Eq.trans (bstep (read_f32_enc _ hINC)) ?_
  refine Eq.trans (bstep (read_f64_enc _ hSD)) ?_
  exact ByteReader.pure_apply _ _

theorem procSection_enc {v : ProcessingParameters} (r : List Nat) (hw : WFproc v) :
    procSection (procBytes v ++ r) = .ok (v, r) := by
  simp only [procBytes, List.append_assoc]
  rw [procSection.eq_def]
  refine Eq.trans (bstep (procFields_enc _ hw)) ?_
  refine Eq.trans (bstep (read_int_enc _ i32OK_0)) ?_
  exact ByteReader.pure_apply _ _

theorem enc_f32_bytes (p : Nat) :
    enc_f32 p = [p / 256 ^ 0 % 256, p / 256 ^ 1 % 256, p / 256 ^ 2 % 256,
      p / 256 ^ 3 % 256] := rfl

theorem enc_f64_bytes (t : Nat) :
    enc_f64 t = [t / 256 ^ 0 % 256, t / 256 ^ 1 % 256, t / 256 ^ 2 % 256,
      t / 256 ^ 3 % 256, t / 256 ^ 4 % 256, t / 256 ^ 5 % 256, t / 256 ^ 6 % 256,
      t / 256 ^ 7 % 256] := rfl

theorem signal_read_loop_enc {rs iss ts : List Nat}
    (h1 : rs.length = ts.length) (h2 : iss.length = ts.length)
    (hr : ∀ x ∈ rs, f32OK x) (hi : ∀ x ∈ iss, f32OK x) (ht : ∀ x ∈ ts, f64OK x) :
    signal_read_loop (enc_data rs iss ts) = (rs, iss, ts) := by
  induction ts generalizing rs iss with
  | nil =>
    rw [List.length_nil, List.length_eq_zero] at h1 h2
    subst h1; subst h2
    rfl
  | cons t ts ih =>
    rcases rs with _ | ⟨r, rs⟩
    · simp at h1
    rcases iss with _ | ⟨i, iss⟩
    · simp at h2
    have hrf : f32OK r := hr r (by simp)
    have hif : f32OK i := hi i (by simp)
    have htf : f64OK t := ht t (by simp)
    have hrest := @ih rs iss (by simpa using h1) (by simpa using h2)
      (fun x hx => hr x (by simp [hx])) (fun x hx => hi x (by simp [hx]))
      (fun x hx => ht x (by simp [hx]))
    rw [show enc_data (r :: rs) (i :: iss) (t :: ts) =
      enc_f32 r ++ enc_f32 i ++ enc_f64 t ++ enc_data rs iss ts from rfl]
    rw [enc_f32_bytes r, enc_f32_bytes i, enc_f64_bytes t]
    rw [show ([r / 256 ^ 0 % 256, r / 256 ^ 1 % 256, r / 256 ^ 2 % 256, r / 256 ^ 3 % 256] ++
        [i / 256 ^ 0 % 256, i / 256 ^ 1 % 256, i / 256 ^ 2 % 256, i / 256 ^ 3 % 256] ++
        [t / 256 ^ 0 % 256, t / 256 ^ 1 % 256, t / 256 ^ 2 % 256, t / 256 ^ 3 % 256,
         t / 256 ^ 4 % 256, t / 256 ^ 5 % 256, t / 256 ^ 6 % 256, t / 256 ^ 7 % 256] ++
        enc_data rs iss ts) =
      (r / 256 ^ 0 % 256 :: r / 256 ^ 1 % 256 :: r / 256 ^ 2 % 256 :: r / 256 ^ 3 % 256 ::
       i / 256 ^ 0 % 256 :: i / 256 ^ 1 % 256 :: i / 256 ^ 2 % 256 :: i / 256 ^ 3 % 256 ::
       t / 256 ^ 0 % 256 :: t / 256 ^ 1 % 256 :: t / 256 ^ 2 % 256 :: t / 256 ^ 3 % 256 ::
       t / 256 ^ 4 % 256 :: t / 256 ^ 5 % 256 :: t / 256 ^ 6 % 256 :: t / 256 ^ 7 % 256 ::
       enc_data rs iss ts) from by simp]
    rw [signal_read_loop]
    rw [hrest]
    rw [show leNat [r / 256 ^ 0 % 256, r / 256 ^ 1 % 256, r / 256 ^ 2 % 256,
        r / 256 ^ 3 % 256] = leNat (bytesOfNat 4 r) from rfl, leNat_bytesOfNat4 hrf]
    rw [show leNat [i / 256 ^ 0 % 256, i / 256 ^ 1 % 256, i / 256 ^ 2 % 256,
        i / 256 ^ 3 % 256] = leNat (bytesOfNat 4 i) from rfl, leNat_bytesOfNat4 hif]
    rw [show leNat [t / 256 ^ 0 % 256, t / 256 ^ 1 % 256, t / 256 ^ 2 % 256,
        t / 256 ^ 3 % 256, t / 256 ^ 4 % 256, t / 256 ^ 5 % 256, t / 256 ^ 6 % 256,
        t / 256 ^ 7 % 256] = leNat (bytesOfNat 8 t) from rfl, leNat_bytesOfNat8 htf]

theorem enc_int32_length (n : Int) : (enc_int32 n).length = 4 := bytesOfNat_length 4 _

theorem enc_f32_length (p : Nat) : (enc_f32 p).length = 4 := bytesOfNat_length 4 _

theorem enc_f64_length (p : Nat) : (enc_f64 p).length = 8 := bytesOfNat_length 8 _

theorem enc_f32seq_length (l : List Nat) : (enc_f32seq l).length = 4 * l.length := by
  induction l with
  | nil => rfl
  | cons x xs ih =>
    show (enc_f32 x ++ enc_f32seq xs).length = 4 * (xs.length + 1)
    rw [List.length_append, enc_f32_length, ih]
    ring

theorem enc_i32seq_length (l : List Int) : (enc_i32seq l).length = 4 * l.length := by
  induction l with
  | nil => rfl
  | cons x xs ih =>
    show (enc_int32 x ++ enc_i32seq xs).length = 4 * (xs.length + 1)
    rw [List.length_append, enc_int32_length, ih]
    ring

theorem rfTrimBytes_length (c : RfChannelsParameters) : (rfTrimBytes c).length = 72 := by
  simp [rfTrimBytes, enc_int32_length]

theorem headerBytes_length {c : List Nat} (h : c.length ≤ 128) :
    (headerBytes c).length = 156 := by
  simp [headerBytes, headerFieldsBytes, enc_int32_length, enc_str_length h]

theorem sysBytes_length {v : SysParameters} (hw : WFsys v) : (sysBytes v).length = 592 := by
  obtain ⟨_, _, _, _, _, _, hG1, hG2, hG3, hG4, hG5, _, _, _, _, _, _, _, _, _, _, _,
    _, _, _, _, _, _, _, hCPD, _, _, _, _, _, _, _, _⟩ := hw
  simp [sysBytes, sysFieldsBytes, enc_int32_length, enc_f32_length, enc_f64_length,
    rfTrimBytes_length, enc_str_length hG1.1, enc_str_length hG2.1, enc_str_length hG3.1,
    enc_str_length hG4.1, enc_str_length hG5.1, enc_str_length hCPD.1]

theorem appBytes_length {v : AppParameters} (hw : WFapp v) : (appBytes v).length = 1512 := by
  obtain ⟨_, _, hPul, _, _, hDel, _, _, hPH1, hPH2, hPH3, hPH4, hPH5, _, _, _, _, _, _,
    hSeqN, hRf0, hRf1, _, hCnt, _, _, _, hGrad, _, _, hSH1, hSH2, hSH3, hSH4, hSH5,
    _, _, hGInc, _, _, _, _, _, _, hGradP, hGradS, hGradR, _, _, hFPs,
    _, _, _, _, _, _, _, _, _, hMore⟩ := hw
  have e1 : (v.Delays.take 5).length = 5 := by simp [List.length_take, hDel.1]
  have e2 : ((v.Delays.drop 5).take 7).length = 7 := by
    simp [List.length_take, List.length_drop, hDel.1]
  have e3 : (v.Delays.drop 12).length = 20 := by simp [List.length_drop, hDel.1]
  have e4 : (v.Counters.take 5).length = 5 := by simp [List.length_take, hCnt.1]
  have e5 : ((v.Counters.drop 5).take 7).length = 7 := by
    simp [List.length_take, List.length_drop, hCnt.1]
  have e6 : (v.Counters.drop 12).length = 20 := by simp [List.length_drop, hCnt.1]
  have e7 : (v.Gradients.take 9).length = 9 := by simp [List.length_take, hGrad.1]
  have e8 : (v.Gradients.drop 9).length = 23 := by simp [List.length_drop, hGrad.1]
  simp [appBytes, appFieldsBytes, enc_int32_length, enc_f32_length, enc_f64_length,
    enc_f32seq_length, enc_i32seq_length,
    enc_str_length hPH1.1, enc_str_length hPH2.1, enc_str_length hPH3.1,
    enc_str_length hPH4.1, enc_str_length hPH5.1, enc_str_length hSeqN.1,
    enc_str_length hSH1.1, enc_str_length hSH2.1, enc_str_length hSH3.1,
    enc_str_length hSH4.1, enc_str_length hSH5.1,
    enc_str_length hGradP.1, enc_str_length hGradS.1, enc_str_length hGradR.1,
    hPul.1, hRf0.1, hRf1.1, hGInc.1, hFPs.1, hMore.1, e1, e2, e3, e4, e5, e6, e7, e8]

theorem procBytes_length {v : ProcessingParameters} (hw : WFproc v) :
    (procBytes v).length = 108 := by
  simp [procBytes, procFieldsBytes, enc_int32_length, enc_f32_length, enc_f64_length,
    enc_i32seq_length, hw.2.1.1]

theorem drop_append2 {α : Type} {a b : List α} {n m : Nat} (c : List α)
    (ha : a.length = n) (hb : b.length = m) : (a ++ (b ++ c)).drop (n + m) = c := by
  rw [← List.drop_drop, drop_append_len _ ha, drop_append_len _ hb]

theorem drop_append3 {α : Type} {a b c : List α} {n m k : Nat} (d : List α)
    (ha : a.length = n) (hb : b.length = m) (hc : c.length = k) :
    (a ++ (b ++ (c ++ d))).drop (n + m + k) = d := by
  rw [← List.drop_drop, drop_append2 _ ha hb, drop_append_len _ hc]

theorem drop_append4 {α : Type} {a b c d : List α} {n m k j : Nat} (e : List α)
    (ha : a.length = n) (hb : b.length = m) (hc : c.length = k) (hd : d.length = j) :
    (a ++ (b ++ (c ++ (d ++ e)))).drop (n + m + k + j) = e := by
  rw [← List.drop_drop, drop_append3 _ ha hb hc, drop_append_len _ hd]

theorem decode_encode {v : RidatResult} (hw : WF v) :
    read_ridat_file (encodeRidat v) = .ok v := by
  obtain ⟨hsys, happ, hproc, htitle, hlr, hli, hbr, hbi, hbt⟩ := hw
  rw [read_ridat_file.eq_def]
  simp only [encodeRidat, List.append_assoc]
  rw [headerP_enc _ htitle, bindE_ok]
  try dsimp only
  rw [show seekTo 156 = Except.ok (156 : Nat) from rfl, bindE_ok]
  try dsimp only
  rw [drop_append_len _ (headerBytes_length htitle.1)]
  rw [sysSection_enc _ hsys, bindE_ok]
  try dsimp only
  rw [show seekTo (156 + 592) = Except.ok ((156 : Nat) + 592) from rfl, bindE_ok]
  try dsimp only
  rw [drop_append2 _ (headerBytes_length htitle.1) (sysBytes_length hsys)]
  rw [appSection_enc _ happ, bindE_ok]
  try dsimp only
  rw [show seekTo (156 + 592 + 1512) = Except.ok ((156 : Nat) + 592 + 1512) from rfl,
    bindE_ok]
  try dsimp only
  rw [drop_append3 _ (headerBytes_length htitle.1) (sysBytes_length hsys)
    (appBytes_length happ)]
  rw [procSection_enc _ hproc, bindE_ok]
  try dsimp only
  rw [show seekTo (156 + 592 + 1512 + 108) = Except.ok ((156 : Nat) + 592 + 1512 + 108)
    from rfl, bindE_ok]
  try dsimp only
  rw [drop_append4 _ (headerBytes_length htitle.1) (sysBytes_length hsys)
    (appBytes_length happ) (procBytes_length hproc)]
  rw [signal_read_loop_enc hlr hli hbr hbi hbt]
  rfl

theorem signal_read_loop_lengths (bs : List Nat) :
    (signal_read_loop bs).2.2.length = bs.length / 16 ∧
    (signal_read_loop bs).1.length =
      bs.length / 16 + (if 4 ≤ bs.length % 16 then 1 else 0) ∧
    (signal_read_loop bs).2.1.length =
      bs.length / 16 + (if 8 ≤ bs.length % 16 then 1 else 0) := by
  induction bs using signal_read_loop.induct with
  | case1 b0 b1 b2 b3 b4 b5 b6 b7 b8 b9 b10 b11 b12 b13 b14 b15 rest ih =>
    obtain ⟨ih1, ih2, ih3⟩ := ih
    rw [signal_read_loop]
    refine ⟨?_, ?_, ?_⟩ <;> simp only [List.length_cons, ih1, ih2, ih3] <;>
      ((try split_ifs) <;> omega)
  | case2 bs h =>
    rcases bs with _ | ⟨a0, _ | ⟨a1, _ | ⟨a2, _ | ⟨a3, _ | ⟨a4, _ | ⟨a5, _ | ⟨a6,
      _ | ⟨a7, _ | ⟨a8, _ | ⟨a9, _ | ⟨a10, _ | ⟨a11, _ | ⟨a12, _ | ⟨a13, _ | ⟨a14,
      _ | ⟨a15, rest⟩⟩⟩⟩⟩⟩⟩⟩⟩⟩⟩⟩⟩⟩⟩⟩
    case cons.cons.cons.cons.cons.cons.cons.cons.cons.cons.cons.cons.cons.cons.cons.cons =>
      exact absurd rfl (h a0 a1 a2 a3 a4 a5 a6 a7 a8 a9 a10 a11 a12 a13 a14 a15 rest)
    all_goals refine ⟨?_, ?_, ?_⟩ <;> simp [signal_read_loop]

theorem bstepE {α β : Type} {p : ByteReader α} {f : α → ByteReader β} {bs : List Nat}
    {e : Err} (h : p bs = .error e) : (p >>= f) bs = .error e := by
  rw [ByteReader.bind_apply, h]

theorem readN_eval {n : Nat} {u : List Nat} (h : n ≤ u.length) :
    readN n u = .ok (u.take n, u.drop n) := by
  unfold readN
  rw [if_pos h]

theorem readN_err {n : Nat} {u : List Nat} (h : u.length < n) :
    readN n u = .error .UnexpectedEndOfFile := by
  unfold readN
  rw [if_neg (by omega)]

theorem read_int_eval {u : List Nat} (h : 4 ≤ u.length) :
    read_int_from_file u = .ok (toInt32 (leNat (u.take 4)), u.drop 4) := by
  rw [read_int_from_file.eq_def]
  exact Eq.trans (bstep (readN_eval h)) (ByteReader.pure_apply _ _)

theorem read_int_err {u : List Nat} (h : u.length < 4) :
    read_int_from_file u = .error .UnexpectedEndOfFile := by
  rw [read_int_from_file.eq_def]
  exact bstepE (readN_err h)

theorem read_float_eval {u : List Nat} (h : 4 ≤ u.length) :
    read_float_from_file u = .ok (leNat (u.take 4), u.drop 4) := by
  rw [read_float_from_file.eq_def]
  exact Eq.trans (bstep (readN_eval h)) (ByteReader.pure_apply _ _)

theorem read_double_eval {u : List Nat} (h : 8 ≤ u.length) :
    read_double_from_file u = .ok (leNat (u.take 8), u.drop 8) := by
  rw [read_double_from_file.eq_def]
  exact Eq.trans (bstep (readN_eval h)) (ByteReader.pure_apply _ _)

theorem checkMagic_fail {m : Int} (h : m ≠ 190955) (bs : List Nat) :
    checkMagic m bs = .error .InvalidMagic := by
  unfold checkMagic
  rw [if_neg h]
  rfl

theorem checkVersion_one (bs : List Nat) : checkVersion 1 bs = .error .UnsupportedFormat := rfl

theorem checkVersion_unknown {m : Int} (h1 : m ≠ 1) (h0 : m ≠ 0) (bs : List Nat) :
    checkVersion m bs = .error .UnknownVersion := by
  unfold checkVersion
  rw [if_neg h1, if_neg h0]
  rfl

theorem read_int_inv {bs : List Nat} {a : Int} {rest : List Nat}
    (h : read_int_from_file bs = .ok (a, rest)) :
    rest = bs.drop 4 ∧ a = toInt32 (leNat (bs.take 4)) ∧ 4 ≤ bs.length := by
  by_cases h4 : 4 ≤ bs.length
  · rw [read_int_eval h4] at h
    cases h
    exact ⟨rfl, rfl, h4⟩
  · rw [read_int_err (by omega)] at h
    exact absurd h (by simp)

theorem checkMagic_inv {m : Int} {bs : List Nat} {u : Unit} {rest : List Nat}
    (h : checkMagic m bs = .ok (u, rest)) : m = 190955 ∧ rest = bs := by
  by_cases hm : m = 190955
  · subst hm
    rw [checkMagic_ok] at h
    cases h
    exact ⟨rfl, rfl⟩
  · rw [checkMagic_fail hm] at h
    exact absurd h (by simp)

theorem checkVersion_inv {m : Int} {bs : List Nat} {u : Unit} {rest : List Nat}
    (h : checkVersion m bs = .ok (u, rest)) : m = 0 ∧ rest = bs := by
  by_cases h1 : m = 1
  · subst h1
    rw [checkVersion_one] at h
    exact absurd h (by simp)
  by_cases h0 : m = 0
  · subst h0
    rw [checkVersion_ok] at h
    cases h
    exact ⟨rfl, rfl⟩
  · rw [checkVersion_unknown h1 h0] at h
    exact absurd h (by simp)

theorem read_string_inv {n : Nat} {bs s rest : List Nat}
    (h : read_string_from_file n bs = .ok (s, rest)) :
    s = rstripNul (bs.take n) ∧ rest = bs.drop n ∧ utf8Valid (bs.take n) = true := by
  rw [read_string_from_file.eq_def] at h
  rw [bstep (show readAvail n bs = .ok (bs.take n, bs.drop n) from rfl)] at h
  by_cases hv : utf8Valid (bs.take n) = true
  · rw [if_pos hv, ByteReader.pure_apply] at h
    cases h
    exact ⟨rfl, rfl, hv⟩
  · rw [if_neg hv] at h
    exact absurd h (by simp [rfail])

theorem bstep_inv {α β : Type} {p : ByteReader α} {f : α → ByteReader β} {bs : List Nat}
    {b : β} {rest : List Nat} (h : (p >>= f) bs = .ok (b, rest)) :
    ∃ a mid, p bs = .ok (a, mid) ∧ f a mid = .ok (b, rest) := by
  rw [ByteReader.bind_apply] at h
  rcases hp : p bs with e | ⟨a, mid⟩
  · rw [hp] at h
    exact absurd h (by simp)
  · rw [hp] at h
    exact ⟨a, mid, rfl, h⟩

theorem headerFields_inv {bs : List Nat} {hd : Header} {rest : List Nat}
    (h : headerFields bs = .ok (hd, rest)) :
    hd.Comment = rstripNul ((bs.drop 24).take 128) ∧
    hd.Sect1Size = toInt32 (leNat ((bs.drop 8).take 4)) ∧
    hd.Sect2Size = toInt32 (leNat ((bs.drop 12).take 4)) ∧
    hd.Sect3Size = toInt32 (leNat ((bs.drop 16).take 4)) ∧
    hd.Sect4Size = toInt32 (leNat ((bs.drop 20).take 4)) ∧
    rest = (bs.drop 24).drop 128 := by
  rw [headerFields.eq_def] at h
  obtain ⟨m1, r1, hm1, h⟩ := bstep_inv h
  obtain ⟨u1, r1', hu1, h⟩ := bstep_inv h
  obtain ⟨m2, r2, hm2, h⟩ := bstep_inv h
  obtain ⟨u2, r2', hu2, h⟩ := bstep_inv h
  obtain ⟨s1, r3, hs1, h⟩ := bstep_inv h
  obtain ⟨s2, r4, hs2, h⟩ := bstep_inv h
  obtain ⟨s3, r5, hs3, h⟩ := bstep_inv h
  obtain ⟨s4, r6, hs4, h⟩ := bstep_inv h
  obtain ⟨cm, r7, hcm, h⟩ := bstep_inv h
  rw [ByteReader.pure_apply] at h
  cases h
  obtain ⟨hr1, _, _⟩ := read_int_inv hm1
  obtain ⟨_, hr1'⟩ := checkMagic_inv hu1
  obtain ⟨hr2, _, _⟩ := read_int_inv hm2
  obtain ⟨_, hr2'⟩ := checkVersion_inv hu2
  obtain ⟨hr3, hv1, _⟩ := read_int_inv hs1
  obtain ⟨hr4, hv2, _⟩ := read_int_inv hs2
  obtain ⟨hr5, hv3, _⟩ := read_int_inv hs3
  obtain ⟨hr6, hv4, _⟩ := read_int_inv hs4
  obtain ⟨hcmv, hr7, _⟩ := read_string_inv hcm
  subst hr1 hr1' hr2 hr2' hr3 hr4 hr5 hr6 hr7
  refine ⟨?_, ?_, ?_, ?_, ?_, ?_⟩
  · rw [hcmv]
    norm_num [List.drop_drop]
  · rw [hv1]
    norm_num [List.drop_drop]
  · rw [hv2]
    norm_num [List.drop_drop]
  · rw [hv3]
    norm_num [List.drop_drop]
  · rw [hv4]
    norm_num [List.drop_drop]
  · norm_num [List.drop_drop]

theorem headerP_inv {bs : List Nat} {hd : Header} {rest : List Nat}
    (h : headerP bs = .ok (hd, rest)) :
    ∃ rf : List Nat, headerFields bs = .ok (hd, rf) ∧ 4 ≤ rf.length ∧ rest = rf.drop 4 := by
  rw [headerP.eq_def] at h
  obtain ⟨hd', rf, hhf, h⟩ := bstep_inv h
  obtain ⟨mk, rf', hmk, h⟩ := bstep_inv h
  rw [ByteReader.pure_apply] at h
  cases h
  obtain ⟨hr, _, hlen⟩ := read_int_inv hmk
  subst hr
  exact ⟨rf, hhf, hlen, rfl⟩

theorem bindE_inv {α β : Type} {x : Except Err α} {f : α → Except Err β} {b : β}
    (h : (x >>= f) = .ok b) : ∃ a, x = .ok a ∧ f a = .ok b := by
  rcases hx : x with e | a
  · rw [hx] at h
    exact absurd h (by simp [bindE_error])
  · rw [hx] at h
    exact ⟨a, rfl, h⟩

theorem seekTo_inv {i : Int} {o : Nat} (h : seekTo i = .ok o) : 0 ≤ i ∧ o = i.toNat := by
  unfold seekTo at h
  by_cases hi : i < 0
  · rw [if_pos hi] at h
    exact absurd h (by simp)
  · rw [if_neg hi] at h
    cases h
    exact ⟨by omega, rfl⟩

theorem read_ridat_inv {bs : List Nat} {r : RidatResult}
    (h : read_ridat_file bs = .ok r) :
    ∃ (hd : Header) (hrest : List Nat) (o2 : Nat) (sp : SysParameters)
      (rest2 : List Nat) (o3 : Nat) (ap : AppParameters) (rest3 : List Nat)
      (o4 : Nat) (pp : ProcessingParameters) (rest4 : List Nat) (oD : Nat),
      headerP bs = .ok (hd, hrest) ∧
      seekTo hd.Sect1Size = .ok o2 ∧
      sysSection (bs.drop o2) = .ok (sp, rest2) ∧
      seekTo (hd.Sect1Size + hd.Sect2Size) = .ok o3 ∧
      appSection (bs.drop o3) = .ok (ap, rest3) ∧
      seekTo (hd.Sect1Size + hd.Sect2Size + hd.Sect3Size) = .ok o4 ∧
      procSection (bs.drop o4) = .ok (pp, rest4) ∧
      seekTo (hd.Sect1Size + hd.Sect2Size + hd.Sect3Size + hd.Sect4Size) = .ok oD ∧
      r = { time := (signal_read_loop (bs.drop oD)).2.2,
            real := (signal_read_loop (bs.drop oD)).1,
            imag := (signal_read_loop (bs.drop oD)).2.1,
            params := { sys := sp, app := ap, proc := pp, title := hd.Comment } } := by
  rw [read_ridat_file.eq_def] at h
  obtain ⟨⟨hd, hrest⟩, hH, h⟩ := bindE_inv h
  obtain ⟨o2, hS2, h⟩ := bindE_inv h
  obtain ⟨⟨sp, rest2⟩, hSys, h⟩ := bindE_inv h
  obtain ⟨o3, hS3, h⟩ := bindE_inv h
  obtain ⟨⟨ap, rest3⟩, hApp, h⟩ := bindE_inv h
  obtain ⟨o4, hS4, h⟩ := bindE_inv h
  obtain ⟨⟨pp, rest4⟩, hProc, h⟩ := bindE_inv h
  obtain ⟨oD, hSD, h⟩ := bindE_inv h
  refine ⟨hd, hrest, o2, sp, rest2, o3, ap, rest3, o4, pp, rest4, oD,
    hH, hS2, hSys, hS3, hApp, hS4, hProc, hSD, ?_⟩
  cases h
  rfl

theorem bind_post {α β : Type} {p : ByteReader α} {f : α → ByteReader β} {P : β → Prop}
    (hf : ∀ a bs b rest, f a bs = .ok (b, rest) → P b) :
    ∀ bs b rest, (p >>= f) bs = .ok (b, rest) → P b := by
  intro bs b rest h
  obtain ⟨a, mid, _, hfa⟩ := bstep_inv h
  exact hf a mid b rest hfa

theorem sysFields_dummy :
    ∀ bs sp rest, sysFields bs = .ok (sp, rest) →
      sp.DummyParam1 = 0 ∧ sp.DummyParam2 = 0 := by
  simp only [sysFields.eq_def]
  repeat (refine bind_post ?_; intro _)
  intro bs sp rest h
  rw [ByteReader.pure_apply] at h
  cases h
  exact ⟨rfl, rfl⟩

theorem read_float_inv {bs : List Nat} {a : Nat} {rest : List Nat}
    (h : read_float_from_file bs = .ok (a, rest)) :
    rest = bs.drop 4 ∧ a = leNat (bs.take 4) ∧ 4 ≤ bs.length := by
  by_cases h4 : 4 ≤ bs.length
  · rw [read_float_eval h4] at h
    cases h
    exact ⟨rfl, rfl, h4⟩
  · rw [read_float_from_file.eq_def, bstepE (readN_err (by omega))] at h
    exact absurd h (by simp)

theorem read_double_inv {bs : List Nat} {a : Nat} {rest : List Nat}
    (h : read_double_from_file bs = .ok (a, rest)) :
    rest = bs.drop 8 ∧ a = leNat (bs.take 8) ∧ 8 ≤ bs.length := by
  by_cases h8 : 8 ≤ bs.length
  · rw [read_double_eval h8] at h
    cases h
    exact ⟨rfl, rfl, h8⟩
  · rw [read_double_from_file.eq_def, bstepE (readN_err (by omega))] at h
    exact absurd h (by simp)

theorem read_rf_trims_pos {sf off : Nat} {bs : List Nat} {c : RfChannelsParameters}
    {rest : List Nat} (h : read_rf_trims sf off bs = .ok (c, rest)) :
    rest = bs.drop 72 := by
  rw [read_rf_trims.eq_def] at h
  obtain ⟨a1, u1, h1, h⟩ := bstep_inv h
  obtain ⟨a2, u2, h2, h⟩ := bstep_inv h
  obtain ⟨a3, u3, h3, h⟩ := bstep_inv h
  obtain ⟨a4, u4, h4, h⟩ := bstep_inv h
  obtain ⟨a5, u5, h5, h⟩ := bstep_inv h
  obtain ⟨a6, u6, h6, h⟩ := bstep_inv h
  obtain ⟨a7, u7, h7, h⟩ := bstep_inv h
  obtain ⟨a8, u8, h8, h⟩ := bstep_inv h
  obtain ⟨a9, u9, h9, h⟩ := bstep_inv h
  obtain ⟨a10, u10, h10, h⟩ := bstep_inv h
  obtain ⟨a11, u11, h11, h⟩ := bstep_inv h
  obtain ⟨a12, u12, h12, h⟩ := bstep_inv h
  obtain ⟨a13, u13, h13, h⟩ := bstep_inv h
  obtain ⟨a14, u14, h14, h⟩ := bstep_inv h
  obtain ⟨a15, u15, h15, h⟩ := bstep_inv h
  obtain ⟨a16, u16, h16, h⟩ := bstep_inv h
  obtain ⟨a17, u17, h17, h⟩ := bstep_inv h
  obtain ⟨a18, u18, h18, h⟩ := bstep_inv h
  rw [ByteReader.pure_apply] at h
  cases h
  rw [(read_int_inv h18).1, (read_int_inv h17).1, (read_int_inv h16).1,
    (read_int_inv h15).1, (read_int_inv h14).1, (read_int_inv h13).1,
    (read_int_inv h12).1, (read_int_inv h11).1, (read_int_inv h10).1,
    (read_int_inv h9).1, (read_int_inv h8).1, (read_int_inv h7).1,
    (read_int_inv h6).1, (read_int_inv h5).1, (read_int_inv h4).1,
    (read_int_inv h3).1, (read_int_inv h2).1, (read_int_inv h1).1]
  norm_num [List.drop_drop]

theorem sysFields_pos {bs : List Nat} {sp : SysParameters} {rest : List Nat}
    (h : sysFields bs = .ok (sp, rest)) :
    sp.DummyPar1 = leNat ((bs.drop 524).take 4) ∧
    sp.DummyPar2 = leNat ((bs.drop 528).take 4) := by
  rw [sysFields.eq_def] at h
  obtain ⟨a1, u1, h1, h⟩ := bstep_inv h
  obtain ⟨a2, u2, h2, h⟩ := bstep_inv h
  obtain ⟨a3, u3, h3, h⟩ := bstep_inv h
  obtain ⟨a4, u4, h4, h⟩ := bstep_inv h
  obtain ⟨a5, u5, h5, h⟩ := bstep_inv h
  obtain ⟨a6, u6, h6, h⟩ := bstep_inv h
  obtain ⟨a7, u7, h7, h⟩ := bstep_inv h
  obtain ⟨a8, u8, h8, h⟩ := bstep_inv h
  obtain ⟨a9, u9, h9, h⟩ := bstep_inv h
  obtain ⟨a10, u10, h10, h⟩ := bstep_inv h
  obtain ⟨a11, u11, h11, h⟩ := bstep_inv h
  obtain ⟨a12, u12, h12, h⟩ := bstep_inv h
  obtain ⟨a13, u13, h13, h⟩ := bstep_inv h
  obtain ⟨a14, u14, h14, h⟩ := bstep_inv h
  obtain ⟨a15, u15, h15, h⟩ := bstep_inv h
  obtain ⟨a16, u16, h16, h⟩ := bstep_inv h
  obtain ⟨a17, u17, h17, h⟩ := bstep_inv h
  obtain ⟨a18, u18, h18, h⟩ := bstep_inv h
  obtain ⟨a19, u19, h19, h⟩ := bstep_inv h
  obtain ⟨a20, u20, h20, h⟩ := bstep_inv h
  obtain ⟨a21, u21, h21, h⟩ := bstep_inv h
  obtain ⟨a22, u22, h22, h⟩ := bstep_inv h
  obtain ⟨a23, u23, h23, h⟩ := bstep_inv h
  obtain ⟨a24, u24, h24, h⟩ := bstep_inv h
  obtain ⟨a25, u25, h25, h⟩ := bstep_inv h
  obtain ⟨a26, u26, h26, h⟩ := bstep_inv h
  obtain ⟨a27, u27, h27, h⟩ := bstep_inv h
  obtain ⟨a28, u28, h28, h⟩ := bstep_inv h
  obtain ⟨a29, u29, h29, h⟩ := bstep_inv h
  obtain ⟨a30, u30, h30, h⟩ := bstep_inv h
  obtain ⟨a31, u31, h31, h⟩ := bstep_inv h
  obtain ⟨a32, u32, h32, h⟩ := bstep_inv h
  obtain ⟨a33, u33, h33, h⟩ := bstep_inv h
  obtain ⟨a34, u34, h34, h⟩ := bstep_inv h
  obtain ⟨a35, u35, h35, h⟩ := bstep_inv h
  obtain ⟨a36, u36, h36, h⟩ := bstep_inv h
  obtain ⟨a37, u37, h37, h⟩ := bstep_inv h
  obtain ⟨a38, u38, h38, h⟩ := bstep_inv h
  obtain ⟨a39, u39, h39, h⟩ := bstep_inv h
  obtain ⟨a40, u40, h40, h⟩ := bstep_inv h
  obtain ⟨a41, u41, h41, h⟩ := bstep_inv h
  obtain ⟨a42, u42, h42, h⟩ := bstep_inv h
  obtain ⟨a43, u43, h43, h⟩ := bstep_inv h
  obtain ⟨a44, u44, h44, h⟩ := bstep_inv h
  obtain ⟨a45, u45, h45, h⟩ := bstep_inv h
  obtain ⟨a46, u46, h46, h⟩ := bstep_inv h
  obtain ⟨a47, u47, h47, h⟩ := bstep_inv h
  obtain ⟨a48, u48, h48, h⟩ := bstep_inv h
  obtain ⟨a49, u49, h49, h⟩ := bstep_inv h
  obtain ⟨a50, u50, h50, h⟩ := bstep_inv h
  obtain ⟨a51, u51, h51, h⟩ := bstep_inv h
  obtain ⟨a52, u52, h52, h⟩ := bstep_inv h
  obtain ⟨a53, u53, h53, h⟩ := bstep_inv h
  obtain ⟨a54, u54, h54, h⟩ := bstep_inv h
  obtain ⟨a55, u55, h55, h⟩ := bstep_inv h
  obtain ⟨a56, u56, h56, h⟩ := bstep_inv h
  obtain ⟨a57, u57, h57, h⟩ := bstep_inv h
  obtain ⟨a58, u58, h58, h⟩ := bstep_inv h
  obtain ⟨a59, u59, h59, h⟩ := bstep_inv h
  obtain ⟨a60, u60, h60, h⟩ := bstep_inv h
  obtain ⟨a61, u61, h61, h⟩ := bstep_inv h
  obtain ⟨a62, u62, h62, h⟩ := bstep_inv h
  obtain ⟨a63, u63, h63, h⟩ := bstep_inv h
  obtain ⟨a64, u64, h64, h⟩ := bstep_inv h
  obtain ⟨a65, u65, h65, h⟩ := bstep_inv h
  rw [ByteReader.pure_apply] at h
  cases h
  have e53 : u53 = bs.drop 524 := by
    rw [(read_float_inv h53).1, (read_float_inv h52).1, (read_float_inv h51).1,
        (read_float_inv h50).1, (read_float_inv h49).1, (read_float_inv h48).1,
        (read_float_inv h47).1, (read_float_inv h46).1, (read_float_inv h45).1,
        (read_float_inv h44).1, (read_float_inv h43).1, (read_float_inv h42).1,
        (read_float_inv h41).1, (read_float_inv h40).1, (read_float_inv h39).1,
        (read_float_inv h38).1, (read_float_inv h37).1, (read_float_inv h36).1,
        (read_float_inv h35).1, (read_float_inv h34).1, (read_float_inv h33).1,
        (read_float_inv h32).1, (read_float_inv h31).1, (read_float_inv h30).1,
        (read_float_inv h29).1, (read_float_inv h28).1, (read_float_inv h27).1,
        (read_float_inv h26).1, (read_float_inv h25).1, (read_float_inv h24).1,
        (read_double_inv h23).1, (read_string_inv h22).2.1,
        (read_string_inv h21).2.1, (read_string_inv h20).2.1,
        (read_string_inv h19).2.1, (read_string_inv h18).2.1,
        (read_int_inv h17).1, (read_int_inv h16).1, (read_int_inv h15).1,
        read_rf_trims_pos h14, (read_double_inv h13).1, (read_double_inv h12).1,
        read_rf_trims_pos h11, (read_double_inv h10).1, (read_double_inv h9).1,
        read_rf_trims_pos h8, (read_int_inv h7).1, (read_double_inv h6).1,
        (read_double_inv h5).1, (read_float_inv h4).1, (read_float_inv h3).1,
        (read_float_inv h2).1, (read_float_inv h1).1]
    norm_num [List.drop_drop]
  have e54 : u54 = bs.drop 528 := by
    rw [(read_float_inv h54).1, e53]
    norm_num [List.drop_drop]
  refine ⟨?_, ?_⟩
  · show a54 = _
    rw [(read_float_inv h54).2.1, e53]
  · show a55 = _
    rw [(read_float_inv h55).2.1, e54]

theorem take_of_drop (l : List Nat) (n m : Nat) :
    (l.drop n).take m = (l.take (n + m)).drop n := by
  rw [List.drop_take]
  congr 1
  omega

theorem agreeTo_mono {n n' : Nat} {b1 b2 : List Nat} (hle : n ≤ n')
    (h : agreeTo n' b1 b2) : agreeTo n b1 b2 := by
  refine ⟨h.1, ?_⟩
  have := congrArg (List.take n) h.2
  simpa [List.take_take, Nat.min_eq_left hle] using this

theorem RelR_mono {α : Type} {m m' : Nat} {x y : Except Err (α × List Nat)}
    (hle : m ≤ m') (h : RelR m' x y) : RelR m x y := by
  cases x with
  | error e1 =>
    cases y with
    | error e2 => exact h
    | ok q => exact h.elim
  | ok q1 =>
    cases y with
    | error e2 => exact h.elim
    | ok q2 =>
      obtain ⟨a1, l1⟩ := q1
      obtain ⟨a2, l2⟩ := q2
      exact ⟨h.1, agreeTo_mono hle h.2⟩

theorem PLoc_mono {α : Type} {p : ByteReader α} {n n' : Nat} (h : PLoc p n)
    (hle : n ≤ n') : PLoc p n' := by
  intro m b1 b2 hag
  exact h m b1 b2 (agreeTo_mono (by omega) hag)

theorem PLoc_pure {α : Type} (a : α) : PLoc (pure a : ByteReader α) 0 := by
  intro m b1 b2 hag
  rw [ByteReader.pure_apply, ByteReader.pure_apply]
  exact ⟨rfl, agreeTo_mono (by omega) hag⟩

theorem PLoc_rfail {α : Type} (e : Err) : PLoc (rfail e : ByteReader α) 0 := by
  intro m b1 b2 _
  rw [rfail_apply, rfail_apply]
  exact rfl

theorem PLoc_bind {α β : Type} {p : ByteReader α} {f : α → ByteReader β} {n k : Nat}
    (hp : PLoc p n) (hf : ∀ a, PLoc (f a) k) : PLoc (p >>= f) (n + k) := by
  intro m b1 b2 hag
  rw [ByteReader.bind_apply, ByteReader.bind_apply]
  have h1 := hp (k + m) b1 b2 (agreeTo_mono (by omega) hag)
  cases hx : p b1 with
  | error e1 =>
    cases hy : p b2 with
    | error e2 =>
      rw [hx, hy] at h1
      exact h1
    | ok q =>
      rw [hx, hy] at h1
      exact h1.elim
  | ok q1 =>
    cases hy : p b2 with
    | error e2 =>
      rw [hx, hy] at h1
      exact h1.elim
    | ok q2 =>
      obtain ⟨a1, l1⟩ := q1
      obtain ⟨a2, l2⟩ := q2
      rw [hx, hy] at h1
      obtain ⟨hv, hl⟩ := h1
      cases hv
      exact hf a1 m l1 l2 hl

theorem PLoc_readN (n : Nat) : PLoc (readN n) n := by
  intro m b1 b2 hag
  obtain ⟨hlen, htake⟩ := hag
  simp only [readN]
  by_cases hn : n ≤ b1.length
  · rw [if_pos hn, if_pos (by omega)]
    refine ⟨?_, ?_, ?_⟩
    · exact (agreeTo_mono (Nat.le_add_right n m) ⟨hlen, htake⟩).2
    · simp [hlen]
    · rw [take_of_drop, take_of_drop, htake]
  · rw [if_neg hn, if_neg (by omega)]
    exact rfl

theorem PLoc_readAvail (n : Nat) : PLoc (readAvail n) n := by
  intro m b1 b2 hag
  obtain ⟨hlen, htake⟩ := hag
  simp only [readAvail]
  refine ⟨?_, ?_, ?_⟩
  · exact (agreeTo_mono (Nat.le_add_right n m) ⟨hlen, htake⟩).2
  · simp [hlen]
  · rw [take_of_drop, take_of_drop, htake]

theorem PLoc_read_int : PLoc read_int_from_file 4 := by
  rw [read_int_from_file]
  exact PLoc_mono (PLoc_bind (PLoc_readN 4) fun b => PLoc_pure _) (by omega)

theorem PLoc_read_float : PLoc read_float_from_file 4 := by
  rw [read_float_from_file]
  exact PLoc_mono (PLoc_bind (PLoc_readN 4) fun b => PLoc_pure _) (by omega)

theorem PLoc_read_double : PLoc read_double_from_file 8 := by
  rw [read_double_from_file]
  exact PLoc_mono (PLoc_bind (PLoc_readN 8) fun b => PLoc_pure _) (by omega)

theorem PLoc_read_string (n : Nat) : PLoc (read_string_from_file n) n := by
  rw [read_string_from_file]
  refine PLoc_mono (@PLoc_bind _ _ _ _ n 0 (PLoc_readAvail n) fun b => ?_) (by omega)
  by_cases hb : utf8Valid b = true
  · rw [if_pos hb]
    exact PLoc_pure _
  · rw [if_neg hb]
    exact PLoc_rfail _

theorem PLoc_checkMagic (v : Int) : PLoc (checkMagic v) 0 := by
  rw [checkMagic]
  split_ifs
  · exact PLoc_pure _
  · exact PLoc_rfail _

theorem PLoc_checkVersion (v : Int) : PLoc (checkVersion v) 0 := by
  rw [checkVersion]
  split_ifs
  · exact PLoc_rfail _
  · exact PLoc_pure _
  · exact PLoc_rfail _

theorem PLoc_seq {α : Type} {p : ByteReader α} {k : Nat} (hp : PLoc p k)
    (n : Nat) : PLoc (read_data_sequence_from_file p n) (n * k) := by
  induction n with
  | zero =>
    rw [read_data_sequence_from_file]
    exact PLoc_mono (PLoc_pure _) (by omega)
  | succ n ih =>
    rw [read_data_sequence_from_file]
    refine PLoc_mono (PLoc_bind hp fun x => PLoc_bind ih fun r => PLoc_pure _) ?_
    rw [Nat.succ_mul]
    omega

theorem PLoc_rf_trims (sf off : Nat) : PLoc (read_rf_trims sf off) 72 := by
  rw [read_rf_trims]
  apply PLoc_mono
  · repeat
      first
      | exact PLoc_read_int
      | exact PLoc_pure _
      | apply PLoc_bind
      | intro x
  · norm_num

theorem PLoc_headerFields : PLoc headerFields 152 := by
  rw [headerFields]
  apply PLoc_mono
  · repeat
      first
      | exact PLoc_read_int
      | exact PLoc_checkMagic _
      | exact PLoc_checkVersion _
      | exact PLoc_read_string _
      | exact PLoc_pure _
      | apply PLoc_bind
      | intro x
  · norm_num

theorem PLoc_sysFields : PLoc sysFields 588 := by
  rw [sysFields]
  apply PLoc_mono
  · repeat
      first
      | exact PLoc_read_int
      | exact PLoc_read_float
      | exact PLoc_read_double
      | exact PLoc_read_string _
      | exact PLoc_rf_trims _ _
      | exact PLoc_pure _
      | apply PLoc_bind
      | intro x
  · norm_num

theorem PLoc_appFields : PLoc appFields 1508 := by
  rw [appFields]
  apply PLoc_mono
  · repeat
      first
      | exact PLoc_read_int
      | exact PLoc_read_float
      | exact PLoc_read_double
      | exact PLoc_read_string _
      | exact PLoc_seq PLoc_read_float _
      | exact PLoc_seq PLoc_read_int _
      | exact PLoc_pure _
      | apply PLoc_bind
      | intro x
  · norm_num

theorem PLoc_procFields : PLoc procFields 104 := by
  rw [procFields]
  apply PLoc_mono
  · repeat
      first
      | exact PLoc_read_int
      | exact PLoc_read_float
      | exact PLoc_read_double
      | exact PLoc_seq PLoc_read_int _
      | exact PLoc_pure _
      | apply PLoc_bind
      | intro x
  · norm_num

theorem discard_int_ext {α : Type} (a : α) {l1 l2 : List Nat}
    (hlen : l1.length = l2.length) :
    outVal ((read_int_from_file >>= fun _ => pure a) l1) =
      outVal ((read_int_from_file >>= fun _ => pure a) l2) := by
  by_cases h4 : 4 ≤ l1.length
  · rw [ByteReader.bind_apply, ByteReader.bind_apply, read_int_eval h4,
      read_int_eval (by omega)]
    rfl
  · rw [ByteReader.bind_apply, ByteReader.bind_apply, read_int_err (by omega),
      read_int_err (by omega)]

theorem endmark_ext {α : Type} {p : ByteReader α} {n : Nat} (hp : PLoc p n)
    {b1 b2 : List Nat} (hlen : b1.length = b2.length)
    (htake : b1.take n = b2.take n) :
    outVal ((p >>= fun a => read_int_from_file >>= fun _ => pure a) b1) =
      outVal ((p >>= fun a => read_int_from_file >>= fun _ => pure a) b2) := by
  have h := hp 0 b1 b2 ⟨hlen, htake⟩
  rw [ByteReader.bind_apply, ByteReader.bind_apply]
  cases hx : p b1 with
  | error e1 =>
    cases hy : p b2 with
    | error e2 =>
      rw [hx, hy] at h
      have h' : e1 = e2 := h
      rw [h']
    | ok q =>
      rw [hx, hy] at h
      exact h.elim
  | ok q1 =>
    cases hy : p b2 with
    | error e2 =>
      rw [hx, hy] at h
      exact h.elim
    | ok q2 =>
      obtain ⟨a1, l1⟩ := q1
      obtain ⟨a2, l2⟩ := q2
      rw [hx, hy] at h
      obtain ⟨hv, hl⟩ := h
      cases hv
      exact discard_int_ext a1 hl.1

theorem headerP_extV {b1 b2 : List Nat} (hlen : b1.length = b2.length)
    (htake : b1.take 152 = b2.take 152) :
    outVal (headerP b1) = outVal (headerP b2) := by
  rw [headerP]
  exact endmark_ext PLoc_headerFields hlen htake

theorem sysSection_extV {b1 b2 : List Nat} (hlen : b1.length = b2.length)
    (htake : b1.take 588 = b2.take 588) :
    outVal (sysSection b1) = outVal (sysSection b2) := by
  rw [sysSection]
  exact endmark_ext PLoc_sysFields hlen htake

theorem appSection_extV {b1 b2 : List Nat} (hlen : b1.length = b2.length)
    (htake : b1.take 1508 = b2.take 1508) :
    outVal (appSection b1) = outVal (appSection b2) := by
  rw [appSection]
  exact endmark_ext PLoc_appFields hlen htake

theorem procSection_extV {b1 b2 : List Nat} (hlen : b1.length = b2.length)
    (htake : b1.take 104 = b2.take 104) :
    outVal (procSection b1) = outVal (procSection b2) := by
  rw [procSection]
  exact endmark_ext PLoc_procFields hlen htake

theorem segment_eq (b1 b2 : List Nat) (o n : Nat)
    (h : ∀ i, o ≤ i → i < o + n → b1[i]? = b2[i]?) :
    (b1.drop o).take n = (b2.drop o).take n := by
  apply List.ext_getElem?
  intro i
  simp only [List.getElem?_take, List.getElem?_drop]
  by_cases hi : i < n
  · rw [if_pos hi, if_pos hi, h (o + i) (by omega) (by omega)]
  · rw [if_neg hi, if_neg hi]

theorem drop_ext (b1 b2 : List Nat) (o : Nat)
    (h : ∀ i, o ≤ i → b1[i]? = b2[i]?) : b1.drop o = b2.drop o := by
  apply List.ext_getElem?
  intro i
  simp only [List.getElem?_drop]
  exact h (o + i) (by omega)

theorem outVal_ok_inv {α : Type} {x : Except Err (α × List Nat)} {a : α}
    (h : outVal x = .ok a) : ∃ l, x = .ok (a, l) := by
  cases x with
  | error e => exact absurd h (by simp [outVal, Except.map])
  | ok q =>
    obtain ⟨b, l⟩ := q
    refine ⟨l, ?_⟩
    have hb : b = a := by simpa [outVal, Except.map] using h
    rw [hb]

theorem outVal_cases {α : Type} {x y : Except Err (α × List Nat)}
    (h : outVal x = outVal y) :
    (∃ e, x = .error e ∧ y = .error e) ∨
      (∃ a lx ly, x = .ok (a, lx) ∧ y = .ok (a, ly)) := by
  cases x with
  | error e =>
    cases y with
    | error e2 =>
      left
      refine ⟨e, rfl, ?_⟩
      have he : e = e2 := by simpa [outVal, Except.map] using h
      rw [he]
    | ok q => exact absurd h (by simp [outVal, Except.map])
  | ok q =>
    cases y with
    | error e2 => exact absurd h (by simp [outVal, Except.map])
    | ok q2 =>
      right
      obtain ⟨a, lx⟩ := q
      obtain ⟨b, ly⟩ := q2
      have hab : a = b := by simpa [outVal, Except.map] using h
      exact ⟨a, lx, ly, rfl, by rw [hab]⟩

/- Noninterference of the four read-and-discarded sentinel words, under a
   layout in which the four sections are laid out one after another with
   sizes at least as large as the byte span each section's reads consume,
   so that no later read revisits a sentinel position. -/
theorem read_ridat_sentinel_ext (b1 b2 : List Nat) (hd : Header)
    (hpar : outVal (headerP b1) = .ok hd)
    (hS1 : 156 ≤ hd.Sect1Size) (hS2 : 592 ≤ hd.Sect2Size)
    (hS3 : 1512 ≤ hd.Sect3Size) (hS4 : 108 ≤ hd.Sect4Size)
    (hlen : b1.length = b2.length)
    (hag : ∀ i, ¬ sentinelPos hd i → b1[i]? = b2[i]?) :
    read_ridat_file b1 = read_ridat_file b2 := by
  have h152 : b1.take 152 = b2.take 152 := by
    have h := segment_eq b1 b2 0 152
      (fun i h0 hi => hag i (by simp only [sentinelPos]; omega))
    simpa using h
  have hpar2 : outVal (headerP b2) = .ok hd := by
    rw [← headerP_extV hlen h152]
    exact hpar
  obtain ⟨r1, hh1⟩ := outVal_ok_inv hpar
  obtain ⟨r2, hh2⟩ := outVal_ok_inv hpar2
  have e2 : seekTo hd.Sect1Size = .ok hd.Sect1Size.toNat := by
    unfold seekTo
    rw [if_neg (by omega)]
  have e3 : seekTo (hd.Sect1Size + hd.Sect2Size) =
      .ok (hd.Sect1Size + hd.Sect2Size).toNat := by
    unfold seekTo
    rw [if_neg (by omega)]
  have e4 : seekTo (hd.Sect1Size + hd.Sect2Size + hd.Sect3Size) =
      .ok (hd.Sect1Size + hd.Sect2Size + hd.Sect3Size).toNat := by
    unfold seekTo
    rw [if_neg (by omega)]
  have eD : seekTo (hd.Sect1Size + hd.Sect2Size + hd.Sect3Size + hd.Sect4Size) =
      .ok (hd.Sect1Size + hd.Sect2Size + hd.Sect3Size + hd.Sect4Size).toNat := by
    unfold seekTo
    rw [if_neg (by omega)]
  have hsysV : outVal (sysSection (b1.drop hd.Sect1Size.toNat)) =
      outVal (sysSection (b2.drop hd.Sect1Size.toNat)) := by
    refine sysSection_extV (by simp [hlen]) ?_
    exact segment_eq b1 b2 hd.Sect1Size.toNat 588
      (fun i hlo hhi => hag i (by simp only [sentinelPos]; omega))
  have happV : outVal (appSection (b1.drop (hd.Sect1Size + hd.Sect2Size).toNat)) =
      outVal (appSection (b2.drop (hd.Sect1Size + hd.Sect2Size).toNat)) := by
    refine appSection_extV (by simp [hlen]) ?_
    exact segment_eq b1 b2 (hd.Sect1Size + hd.Sect2Size).toNat 1508
      (fun i hlo hhi => hag i (by simp only [sentinelPos]; omega))
  have hprocV : outVal
        (procSection (b1.drop (hd.Sect1Size + hd.Sect2Size + hd.Sect3Size).toNat)) =
      outVal
        (procSection (b2.drop (hd.Sect1Size + hd.Sect2Size + hd.Sect3Size).toNat)) := by
    refine procSection_extV (by simp [hlen]) ?_
    exact segment_eq b1 b2 (hd.Sect1Size + hd.Sect2Size + hd.Sect3Size).toNat 104
      (fun i hlo hhi => hag i (by simp only [sentinelPos]; omega))
  have hdata :
      b1.drop (hd.Sect1Size + hd.Sect2Size + hd.Sect3Size + hd.Sect4Size).toNat =
      b2.drop (hd.Sect1Size + hd.Sect2Size + hd.Sect3Size + hd.Sect4Size).toNat := by
    refine drop_ext b1 b2 _ (fun i hi => hag i ?_)
    simp only [sentinelPos]
    omega
  rw [read_ridat_file.eq_def]
  rw [read_ridat_file.eq_def]
  rw [hh1, hh2, bindE_ok, bindE_ok]
  try dsimp only
  rw [e2, bindE_ok, bindE_ok]
  try dsimp only
  rcases outVal_cases hsysV with ⟨e, hx, hy⟩ | ⟨sp, lx, ly, hx, hy⟩
  · rw [hx, hy, bindE_error, bindE_error]
  · rw [hx, hy, bindE_ok, bindE_ok]
    try dsimp only
    rw [e3, bindE_ok, bindE_ok]
    try dsimp only
    rcases outVal_cases happV with ⟨e, hx2, hy2⟩ | ⟨ap, lx2, ly2, hx2, hy2⟩
    · rw [hx2, hy2, bindE_error, bindE_error]
    · rw [hx2, hy2, bindE_ok, bindE_ok]
      try dsimp only
      rw [e4, bindE_ok, bindE_ok]
      try dsimp only
      rcases outVal_cases hprocV with ⟨e, hx3, hy3⟩ | ⟨pp, lx3, ly3, hx3, hy3⟩
      · rw [hx3, hy3, bindE_error, bindE_error]
      · rw [hx3, hy3, bindE_ok, bindE_ok]
        try dsimp only
        rw [eD, bindE_ok, bindE_ok]
        try dsimp only
        rw [hdata]

theorem sysSection_inv {bs : List Nat} {sp : SysParameters} {rest : List Nat}
    (h : sysSection bs = .ok (sp, rest)) : ∃ mid, sysFields bs = .ok (sp, mid) := by
  rw [sysSection.eq_def] at h
  obtain ⟨a, mid, ha, h⟩ := bstep_inv h
  obtain ⟨b, mid2, hb, h⟩ := bstep_inv h
  rw [ByteReader.pure_apply] at h
  cases h
  exact ⟨mid, ha⟩

theorem headerFields_utf8 {bs : List Nat} {hd : Header} {rest : List Nat}
    (h : headerFields bs = .ok (hd, rest)) :
    utf8Valid ((bs.drop 24).take 128) = true := by
  rw [headerFields.eq_def] at h
  obtain ⟨m1, r1, hm1, h⟩ := bstep_inv h
  obtain ⟨u1, r1', hu1, h⟩ := bstep_inv h
  obtain ⟨m2, r2, hm2, h⟩ := bstep_inv h
  obtain ⟨u2, r2', hu2, h⟩ := bstep_inv h
  obtain ⟨s1, r3, hs1, h⟩ := bstep_inv h
  obtain ⟨s2, r4, hs2, h⟩ := bstep_inv h
  obtain ⟨s3, r5, hs3, h⟩ := bstep_inv h
  obtain ⟨s4, r6, hs4, h⟩ := bstep_inv h
  obtain ⟨cm, r7, hcm, h⟩ := bstep_inv h
  have hv := (read_string_inv hcm).2.2
  rw [(read_int_inv hs4).1, (read_int_inv hs3).1, (read_int_inv hs2).1,
    (read_int_inv hs1).1, (checkVersion_inv hu2).2, (read_int_inv hm2).1,
    (checkMagic_inv hu1).2, (read_int_inv hm1).1] at hv
  rw [show (24 : Nat) = 4 + 4 + 4 + 4 + 4 + 4 from rfl, ← List.drop_drop,
    ← List.drop_drop, ← List.drop_drop, ← List.drop_drop, ← List.drop_drop]
  exact hv

theorem headerP_encodeRidat_v0 :
    headerP (encodeRidat v0) = .ok (hd0, (encodeRidat v0).drop 156) := by
  have ht : v0.params.title = [] := rfl
  have h1 : encodeRidat v0 = headerBytes [] ++
      (sysBytes v0.params.sys ++ (appBytes v0.params.app ++
        (procBytes v0.params.proc ++ enc_data v0.real v0.imag v0.time))) := by
    simp only [encodeRidat, ht, List.append_assoc]
  rw [h1, headerP_enc _ (by decide), drop_append_len _ (headerBytes_length (by decide))]
  rfl

theorem WF_v0 : WF v0 := by decide

theorem WF_v3 : WF v3 := by decide

theorem dec_v0 : read_ridat_file (encodeRidat v0) = .ok v0 := decode_encode WF_v0

theorem dec_v3 : read_ridat_file (encodeRidat v3) = .ok v3 := decode_encode WF_v3

/-- C3: round-trip — for every assignment of well-formed field values v,
building a byte buffer from the documented fixed layout (encodeRidat) and
decoding it with read_ridat_file returns exactly v: every metadata field,
string (NUL-stripped) and data sample reads back bit-for-bit. -/
theorem claim_C3 (v : RidatResult) (hw : WF v) :
    read_ridat_file (encodeRidat v) = .ok v := decode_encode hw

/-- Witness for C3 at the three-sample value v3. -/
theorem claim_C3_witness : WF v3 ∧ read_ridat_file (encodeRidat v3) = .ok v3 :=
  ⟨WF_v3, claim_C3 v3 WF_v3⟩

/-- C4: for every input of at least 4 bytes whose first 4 bytes decode to an
int32 different from 190955, read_ridat_file fails with InvalidMagic,
regardless of all remaining content. -/
theorem claim_C4 (bs : List Nat) (h4 : 4 ≤ bs.length)
    (hm : toInt32 (leNat (bs.take 4)) ≠ 190955) :
    read_ridat_file bs = .error .InvalidMagic := by
  have hh : headerP bs = .error .InvalidMagic := by
    rw [headerP.eq_def]
    refine bstepE ?_
    rw [headerFields.eq_def]
    rw [bstep (read_int_eval h4)]
    exact bstepE (checkMagic_fail hm _)
  rw [read_ridat_file.eq_def, hh, bindE_error]

/-- Witness for C4 on the all-zero 4-byte input. -/
theorem claim_C4_witness :
    4 ≤ ([0, 0, 0, 0] : List Nat).length ∧
    toInt32 (leNat (([0, 0, 0, 0] : List Nat).take 4)) ≠ 190955 ∧
    read_ridat_file [0, 0, 0, 0] = .error .InvalidMagic :=
  ⟨by decide, by decide, claim_C4 [0, 0, 0, 0] (by decide) (by decide)⟩

/-- C5: for every input of at least 8 bytes with valid magic 190955, if the
second int32 (version) equals 1 the decode fails with UnsupportedFormat, and
if the version is any value other than 0 or 1 it fails with UnknownVersion;
so only version 0 proceeds past the version check. -/
theorem claim_C5 (bs : List Nat) (h8 : 8 ≤ bs.length)
    (hm : toInt32 (leNat (bs.take 4)) = 190955) :
    (toInt32 (leNat ((bs.drop 4).take 4)) = 1 →
      read_ridat_file bs = .error .UnsupportedFormat) ∧
    (toInt32 (leNat ((bs.drop 4).take 4)) ≠ 1 →
      toInt32 (leNat ((bs.drop 4).take 4)) ≠ 0 →
      read_ridat_file bs = .error .UnknownVersion) := by
  constructor
  · intro hv
    have hh : headerP bs = .error .UnsupportedFormat := by
      rw [headerP.eq_def]
      refine bstepE ?_
      rw [headerFields.eq_def]
      rw [bstep (read_int_eval (by omega)), hm]
      rw [bstep (checkMagic_ok _)]
      rw [bstep (read_int_eval (by simp only [List.length_drop]; omega)), hv]
      exact bstepE (checkVersion_one _)
    rw [read_ridat_file.eq_def, hh, bindE_error]
  · intro hv1 hv0
    have hh : headerP bs = .error .UnknownVersion := by
      rw [headerP.eq_def]
      refine bstepE ?_
      rw [headerFields.eq_def]
      rw [bstep (read_int_eval (by omega)), hm]
      rw [bstep (checkMagic_ok _)]
      rw [bstep (read_int_eval (by simp only [List.length_drop]; omega))]
      exact bstepE (checkVersion_unknown hv1 hv0 _)
    rw [read_ridat_file.eq_def, hh, bindE_error]

/-- Witness for C5 on an 8-byte input with valid magic: version 1 is rejected
as UnsupportedFormat, and (at a second input) version 7 as UnknownVersion. -/
theorem claim_C5_witness :
    8 ≤ ([235, 233, 2, 0, 1, 0, 0, 0] : List Nat).length ∧
    toInt32 (leNat (([235, 233, 2, 0, 1, 0, 0, 0] : List Nat).take 4)) = 190955 ∧
    read_ridat_file [235, 233, 2, 0, 1, 0, 0, 0] = .error .UnsupportedFormat ∧
    read_ridat_file [235, 233, 2, 0, 7, 0, 0, 0] = .error .UnknownVersion :=
  ⟨by decide, by decide,
   (claim_C5 [235, 233, 2, 0, 1, 0, 0, 0] (by decide) (by decide)).1 (by decide),
   (claim_C5 [235, 233, 2, 0, 7, 0, 0, 0] (by decide) (by decide)).2 (by decide) (by decide)⟩

/-- C8: for every formatter and every source byte content, export with an
empty delimiter fails with EmptyDelimiter without looking at the source: the
result is the same for all inputs bs. -/
theorem claim_C8 (fmt : Nat → List Char) (bs : List Nat) :
    export_ridat_data_to_text_file fmt bs [] = .error .EmptyDelimiter := by
  unfold export_ridat_data_to_text_file
  rw [if_pos rfl]

/-- C1 (amended): for every input whose decode succeeds with header hd, the
data region starts at (Sect1Size+Sect2Size+Sect3Size+Sect4Size).toNat and one
record is 16 bytes (float32 real, float32 imag, float64 time), not 12; for a
region of L bytes the time sequence has exactly L/16 entries, while a partial
trailing record is partially kept: real gains one extra entry when L%16 >= 4
and imag one when L%16 >= 8, so the three sequences need not be equally long. -/
theorem claim_C1 (bs : List Nat) (v : RidatResult) (hd : Header) (hr : List Nat)
    (hv : read_ridat_file bs = .ok v) (hh : headerP bs = .ok (hd, hr)) :
    v.time.length =
      (bs.length -
        (hd.Sect1Size + hd.Sect2Size + hd.Sect3Size + hd.Sect4Size).toNat) / 16 ∧
    v.real.length =
      (bs.length -
        (hd.Sect1Size + hd.Sect2Size + hd.Sect3Size + hd.Sect4Size).toNat) / 16 +
      (if 4 ≤ (bs.length -
          (hd.Sect1Size + hd.Sect2Size + hd.Sect3Size + hd.Sect4Size).toNat) % 16
       then 1 else 0) ∧
    v.imag.length =
      (bs.length -
        (hd.Sect1Size + hd.Sect2Size + hd.Sect3Size + hd.Sect4Size).toNat) / 16 +
      (if 8 ≤ (bs.length -
          (hd.Sect1Size + hd.Sect2Size + hd.Sect3Size + hd.Sect4Size).toNat) % 16
       then 1 else 0) := by
  obtain ⟨hd', hrest', o2, sp, rest2, o3, ap, rest3, o4, pp, rest4, oD,
    hH, hs2, hSys, hs3, hApp, hs4, hProc, hSD, hrv⟩ := read_ridat_inv hv
  rw [hh] at hH
  injection hH with h1
  injection h1 with e1 e2
  subst e1
  obtain ⟨_, hoD⟩ := seekTo_inv hSD
  subst hoD
  subst hrv
  have hl := signal_read_loop_lengths
    (bs.drop (hd.Sect1Size + hd.Sect2Size + hd.Sect3Size + hd.Sect4Size).toNat)
  rw [List.length_drop] at hl
  exact hl

/-- Witness for C1 at the canonical encoding of the all-default value v0. -/
theorem claim_C1_witness :
    read_ridat_file (encodeRidat v0) = .ok v0 ∧
    headerP (encodeRidat v0) = .ok (hd0, (encodeRidat v0).drop 156) ∧
    (v0.time.length =
      ((encodeRidat v0).length -
        (hd0.Sect1Size + hd0.Sect2Size + hd0.Sect3Size + hd0.Sect4Size).toNat) / 16 ∧
     v0.real.length =
      ((encodeRidat v0).length -
        (hd0.Sect1Size + hd0.Sect2Size + hd0.Sect3Size + hd0.Sect4Size).toNat) / 16 +
      (if 4 ≤ ((encodeRidat v0).length -
          (hd0.Sect1Size + hd0.Sect2Size + hd0.Sect3Size + hd0.Sect4Size).toNat) % 16
       then 1 else 0) ∧
     v0.imag.length =
      ((encodeRidat v0).length -
        (hd0.Sect1Size + hd0.Sect2Size + hd0.Sect3Size + hd0.Sect4Size).toNat) / 16 +
      (if 8 ≤ ((encodeRidat v0).length -
          (hd0.Sect1Size + hd0.Sect2Size + hd0.Sect3Size + hd0.Sect4Size).toNat) % 16
       then 1 else 0)) :=
  ⟨dec_v0, headerP_encodeRidat_v0,
   claim_C1 (encodeRidat v0) v0 hd0 ((encodeRidat v0).drop 156) dec_v0
     headerP_encodeRidat_v0⟩

/-- C1 counterexample: c1bs decodes successfully, its header has all four
section sizes 0 so its data region is the whole 1524-byte file, and
1524 = 12*127, yet the decoded sequence lengths are (time, real, imag) =
(95, 96, 95): not equal to one another and none equal to 1524/12 = 127. -/
theorem claim_C1_counterexample :
    outVal (headerP c1bs) = .ok hdZ ∧
    c1bs.length = 12 * 127 ∧
    (read_ridat_file c1bs).map
      (fun r => (r.time.length, r.real.length, r.imag.length)) = .ok (95, 96, 95) :=
  ⟨by decide, by decide, by decide⟩

/-- C2 (amended): for every input whose decode succeeds with header hd, the
three decoded sequences are read from the data region starting at absolute
offset Sect1Size + Sect2Size + Sect3Size + Sect4Size: the header's Sect4Size
IS used in computing the data section's start offset (source line 461). -/
theorem claim_C2 (bs : List Nat) (v : RidatResult) (hd : Header) (hr : List Nat)
    (hv : read_ridat_file bs = .ok v) (hh : headerP bs = .ok (hd, hr)) :
    v.real = (signal_read_loop (bs.drop
      (hd.Sect1Size + hd.Sect2Size + hd.Sect3Size + hd.Sect4Size).toNat)).1 ∧
    v.imag = (signal_read_loop (bs.drop
      (hd.Sect1Size + hd.Sect2Size + hd.Sect3Size + hd.Sect4Size).toNat)).2.1 ∧
    v.time = (signal_read_loop (bs.drop
      (hd.Sect1Size + hd.Sect2Size + hd.Sect3Size + hd.Sect4Size).toNat)).2.2 := by
  obtain ⟨hd', hrest', o2, sp, rest2, o3, ap, rest3, o4, pp, rest4, oD,
    hH, hs2, hSys, hs3, hApp, hs4, hProc, hSD, hrv⟩ := read_ridat_inv hv
  rw [hh] at hH
  injection hH with h1
  injection h1 with e1 e2
  subst e1
  obtain ⟨_, hoD⟩ := seekTo_inv hSD
  subst hoD
  subst hrv
  exact ⟨rfl, rfl, rfl⟩

/-- Witness for C2 at the canonical encoding of the all-default value v0. -/
theorem claim_C2_witness :
    read_ridat_file (encodeRidat v0) = .ok v0 ∧
    headerP (encodeRidat v0) = .ok (hd0, (encodeRidat v0).drop 156) ∧
    (v0.real = (signal_read_loop ((encodeRidat v0).drop
      (hd0.Sect1Size + hd0.Sect2Size + hd0.Sect3Size + hd0.Sect4Size).toNat)).1 ∧
     v0.imag = (signal_read_loop ((encodeRidat v0).drop
      (hd0.Sect1Size + hd0.Sect2Size + hd0.Sect3Size + hd0.Sect4Size).toNat)).2.1 ∧
     v0.time = (signal_read_loop ((encodeRidat v0).drop
      (hd0.Sect1Size + hd0.Sect2Size + hd0.Sect3Size + hd0.Sect4Size).toNat)).2.2) :=
  ⟨dec_v0, headerP_encodeRidat_v0,
   claim_C2 (encodeRidat v0) v0 hd0 ((encodeRidat v0).drop 156) dec_v0
     headerP_encodeRidat_v0⟩

/-- C2 counterexample: c2bs has section sizes (0, 0, 0, 12); its decode
succeeds and yields 95 time samples, whereas the signal stream read at offset
Sect1Size + Sect2Size + Sect3Size = 0 would yield 96: the data section is not
read at that offset. -/
theorem claim_C2_counterexample :
    outVal (headerP c2bs) =
      .ok { Sect1Size := 0, Sect2Size := 0, Sect3Size := 0, Sect4Size := 12 } ∧
    (read_ridat_file c2bs).map (fun r => r.time.length) = .ok 95 ∧
    (signal_read_loop (c2bs.drop ((0 : Int) + 0 + 0).toNat)).2.2.length = 96 :=
  ⟨by decide, by decide, by decide⟩

/-- C7: for every input on which decode succeeds, the returned title equals
the 128-byte block at header offset 24 with trailing NUL bytes stripped, and
that block is valid UTF-8 (the decode would otherwise have failed). -/
theorem claim_C7 (bs : List Nat) (v : RidatResult)
    (hv : read_ridat_file bs = .ok v) :
    v.params.title = rstripNul ((bs.drop 24).take 128) ∧
    utf8Valid ((bs.drop 24).take 128) = true := by
  obtain ⟨hd, hrest, o2, sp, rest2, o3, ap, rest3, o4, pp, rest4, oD,
    hH, _, _, _, _, _, _, _, hrv⟩ := read_ridat_inv hv
  obtain ⟨rf, hhf, _, _⟩ := headerP_inv hH
  have hc := (headerFields_inv hhf).1
  have hu := headerFields_utf8 hhf
  subst hrv
  exact ⟨hc, hu⟩

/-- Witness for C7 at the canonical encoding of the all-default value v0. -/
theorem claim_C7_witness :
    read_ridat_file (encodeRidat v0) = .ok v0 ∧
    (v0.params.title = rstripNul (((encodeRidat v0).drop 24).take 128) ∧
     utf8Valid (((encodeRidat v0).drop 24).take 128) = true) :=
  ⟨dec_v0, claim_C7 (encodeRidat v0) v0 dec_v0⟩

/-- C10: for every input on which decode succeeds, the returned system
record's declared fields DummyParam1 and DummyParam2 still hold their initial
value 0 regardless of the input bytes, while the two float32 words at the
corresponding wire position (bytes 524-531 of the System section, which
starts at offset Sect1Size) are stored under the distinct attribute names
DummyPar1 and DummyPar2. -/
theorem claim_C10 (bs : List Nat) (v : RidatResult) (hd : Header) (hr : List Nat)
    (hv : read_ridat_file bs = .ok v) (hh : headerP bs = .ok (hd, hr)) :
    v.params.sys.DummyParam1 = 0 ∧ v.params.sys.DummyParam2 = 0 ∧
    v.params.sys.DummyPar1 =
      leNat (((bs.drop hd.Sect1Size.toNat).drop 524).take 4) ∧
    v.params.sys.DummyPar2 =
      leNat (((bs.drop hd.Sect1Size.toNat).drop 528).take 4) := by
  obtain ⟨hd', hrest', o2, sp, rest2, o3, ap, rest3, o4, pp, rest4, oD,
    hH, hs2, hSys, _, _, _, _, _, hrv⟩ := read_ridat_inv hv
  rw [hh] at hH
  injection hH with h1
  injection h1 with e1 e2
  subst e1
  obtain ⟨_, ho2⟩ := seekTo_inv hs2
  subst ho2
  obtain ⟨mid, hsf⟩ := sysSection_inv hSys
  subst hrv
  have hdum := sysFields_dummy _ sp mid hsf
  have hpos := sysFields_pos hsf
  exact ⟨hdum.1, hdum.2, hpos.1, hpos.2⟩

/-- Witness for C10 at the canonical encoding of the all-default value v0. -/
theorem claim_C10_witness :
    read_ridat_file (encodeRidat v0) = .ok v0 ∧
    headerP (encodeRidat v0) = .ok (hd0, (encodeRidat v0).drop 156) ∧
    (v0.params.sys.DummyParam1 = 0 ∧ v0.params.sys.DummyParam2 = 0 ∧
     v0.params.sys.DummyPar1 =
       leNat ((((encodeRidat v0).drop hd0.Sect1Size.toNat).drop 524).take 4) ∧
     v0.params.sys.DummyPar2 =
       leNat ((((encodeRidat v0).drop hd0.Sect1Size.toNat).drop 528).take 4)) :=
  ⟨dec_v0, headerP_encodeRidat_v0,
   claim_C10 (encodeRidat v0) v0 hd0 ((encodeRidat v0).drop 156) dec_v0
     headerP_encodeRidat_v0⟩

/-- C6 (amended): noninterference of the four read-and-discarded sentinel
words holds only under a non-overlapping layout: when the decoded header's
section sizes are at least the spans the sections' reads consume
(Sect1Size >= 156, Sect2Size >= 592, Sect3Size >= 1512, Sect4Size >= 108),
two equal-length inputs that agree everywhere outside the four sentinel
positions (sentinelPos) decode to identical results; without that layout
hypothesis a later seek can re-read a sentinel byte as data. -/
theorem claim_C6 (b1 b2 : List Nat) (hd : Header)
    (hpar : outVal (headerP b1) = .ok hd)
    (hS1 : 156 ≤ hd.Sect1Size) (hS2 : 592 ≤ hd.Sect2Size)
    (hS3 : 1512 ≤ hd.Sect3Size) (hS4 : 108 ≤ hd.Sect4Size)
    (hlen : b1.length = b2.length)
    (hag : ∀ i, ¬ sentinelPos hd i → b1[i]? = b2[i]?) :
    read_ridat_file b1 = read_ridat_file b2 :=
  read_ridat_sentinel_ext b1 b2 hd hpar hS1 hS2 hS3 hS4 hlen hag

/-- Witness for C6: the canonical encoding of v0 and the same bytes with the
end-of-header sentinel byte at position 152 set to 7 decode identically. -/
theorem claim_C6_witness :
    outVal (headerP (encodeRidat v0)) = .ok hd0 ∧
    (156 : Int) ≤ hd0.Sect1Size ∧ (592 : Int) ≤ hd0.Sect2Size ∧
    (1512 : Int) ≤ hd0.Sect3Size ∧ (108 : Int) ≤ hd0.Sect4Size ∧
    (encodeRidat v0).length = ((encodeRidat v0).set 152 7).length ∧
    (∀ i, ¬ sentinelPos hd0 i →
      (encodeRidat v0)[i]? = ((encodeRidat v0).set 152 7)[i]?) ∧
    read_ridat_file (encodeRidat v0) =
      read_ridat_file ((encodeRidat v0).set 152 7) := by
  have hpar : outVal (headerP (encodeRidat v0)) = .ok hd0 := by
    rw [headerP_encodeRidat_v0]
    rfl
  have hlen : (encodeRidat v0).length = ((encodeRidat v0).set 152 7).length :=
    (List.length_set _ _ _).symm
  have hag : ∀ i, ¬ sentinelPos hd0 i →
      (encodeRidat v0)[i]? = ((encodeRidat v0).set 152 7)[i]? := by
    intro i hns
    have h152 : (152 : Nat) ≠ i := by
      intro h
      apply hns
      rw [← h]
      exact Or.inl ⟨by norm_num, by norm_num⟩
    exact (List.getElem?_set_ne h152).symm
  exact ⟨hpar, by decide, by decide, by decide, by decide, hlen, hag,
    claim_C6 (encodeRidat v0) ((encodeRidat v0).set 152 7) hd0 hpar
      (by decide) (by decide) (by decide) (by decide) hlen hag⟩

/-- C6 counterexample: c1bs decodes to a header with all section sizes 0, so
position 152 holds the read-and-discarded end-of-header sentinel, yet the two
inputs c1bs and c1bs with byte 152 set to 1 — which differ at that sentinel
position only — decode to different time sequences (the overlapping layout
makes the data region re-read the sentinel byte). -/
theorem claim_C6_counterexample :
    outVal (headerP c1bs) = .ok hdZ ∧
    sentinelPos hdZ 152 ∧
    (∀ i, i ≠ 152 → c1bs[i]? = (c1bs.set 152 1)[i]?) ∧
    (read_ridat_file c1bs).map (fun r => r.time) ≠
      (read_ridat_file (c1bs.set 152 1)).map (fun r => r.time) := by
  refine ⟨by decide, Or.inl ⟨by norm_num, by norm_num⟩, ?_, by decide⟩
  intro i hi
  exact (List.getElem?_set_ne fun h => hi h.symm).symm

/-- C9: for every decoded signal whose three sequences have equal length N
and every non-empty delimiter d, export writes exactly one header line — the
comment marker then "Time (us)", "Real (Machine Units)", "Imag (Machine
Units)" joined by d — followed by exactly N data lines, the i-th holding the
formatted time, real and imag values of sample i joined by d in that order;
with a comma-free formatter each data line holds exactly twice as many commas
as d does (two for d = ","). -/
theorem claim_C9 (fmt : Nat → List Char) (bs : List Nat) (d : List Char)
    (r : RidatResult) (hdne : d ≠ []) (hr : read_ridat_file bs = .ok r)
    (hlr : r.real.length = r.time.length) (hli : r.imag.length = r.time.length) :
    export_ridat_data_to_text_file fmt bs d =
      .ok ((['#', ' '] ++ "Time (us)".toList ++ d ++ "Real (Machine Units)".toList
            ++ d ++ "Imag (Machine Units)".toList) ::
          (r.time.zip (r.real.zip r.imag)).map
            (fun p => fmt p.1 ++ d ++ fmt p.2.1 ++ d ++ fmt p.2.2)) ∧
    ((r.time.zip (r.real.zip r.imag)).map
        (fun p => fmt p.1 ++ d ++ fmt p.2.1 ++ d ++ fmt p.2.2)).length =
      r.time.length ∧
    ((∀ w, (fmt w).count ',' = 0) →
      ∀ x ∈ (r.time.zip (r.real.zip r.imag)).map
          (fun p => fmt p.1 ++ d ++ fmt p.2.1 ++ d ++ fmt p.2.2),
        x.count ',' = 2 * d.count ',') := by
  have hb1 : broadcastTo r.time.length r.real = .ok r.real := by
    unfold broadcastTo
    rw [if_pos hlr]
  have hb2 : broadcastTo r.time.length r.imag = .ok r.imag := by
    unfold broadcastTo
    rw [if_pos hli]
  refine ⟨?_, ?_, ?_⟩
  · unfold export_ridat_data_to_text_file
    rw [if_neg hdne, hr]
    try dsimp only
    rw [hb1, hb2]
  · simp only [List.length_map, List.length_zip, hlr, hli]
    omega
  · intro hfmt x hx
    simp only [List.mem_map] at hx
    obtain ⟨p, hp, hxe⟩ := hx
    subst hxe
    simp only [List.count_append, hfmt]
    omega

/-- Witness for C9 at the three-sample value v3 with delimiter "," and the
comma-free one-character formatter fmt0. -/
theorem claim_C9_witness :
    ([','] : List Char) ≠ [] ∧
    read_ridat_file (encodeRidat v3) = .ok v3 ∧
    v3.real.length = v3.time.length ∧ v3.imag.length = v3.time.length ∧
    (export_ridat_data_to_text_file fmt0 (encodeRidat v3) [','] =
      .ok ((['#', ' '] ++ "Time (us)".toList ++ [','] ++
            "Real (Machine Units)".toList ++ [','] ++
            "Imag (Machine Units)".toList) ::
          (v3.time.zip (v3.real.zip v3.imag)).map
            (fun p => fmt0 p.1 ++ [','] ++ fmt0 p.2.1 ++ [','] ++ fmt0 p.2.2)) ∧
     ((v3.time.zip (v3.real.zip v3.imag)).map
        (fun p => fmt0 p.1 ++ [','] ++ fmt0 p.2.1 ++ [','] ++ fmt0 p.2.2)).length =
      v3.time.length ∧
     ((∀ w, (fmt0 w).count ',' = 0) →
      ∀ x ∈ (v3.time.zip (v3.real.zip v3.imag)).map
          (fun p => fmt0 p.1 ++ [','] ++ fmt0 p.2.1 ++ [','] ++ fmt0 p.2.2),
        x.count ',' = 2 * ([','] : List Char).count ',')) :=
  ⟨by decide, dec_v3, rfl, rfl,
   claim_C9 fmt0 (encodeRidat v3) [','] v3 (by decide) dec_v3 rfl rfl⟩
